import Mathlib

/-!
# Verification of the sqlython query builder and model layer

A shallow embedding of `sqlython/builder.py`, `sqlython/filter.py` and
`sqlython/model.py` in Lean 4, together with theorems checking the design
document's claims about the query compiler, the result pipeline, the cast
engine and the pagination calculator.

Conventions of the embedding:
* Python values are modelled by the inductive type `Value`; Python `dict`s
  are association lists in insertion order, `datetime` objects carry their
  ISO text, and `float`s are modelled as exact rationals.
* Fallible Python code (code that may raise) is modelled in `Except String`;
  the string is the exception message.
* The database connection is an external collaborator: it is modelled as an
  oracle function from (sql, bindings) to a cursor result.
* Python standard-library collaborators (`json`, `datetime.fromisoformat`,
  `float(...)` parsing) are modelled by simplified but executable functions;
  claims never depend on their internals, only on success/failure shapes.
-/

/-- Python values as they flow through the library. -/
inductive Value where
  | vNull
  | vBool (b : Bool)
  | vInt (n : Int)
  | vFloat (q : ℚ)
  | vStr (s : String)
  | vList (xs : List Value)
  | vDict (fs : List (String × Value))
  | vDate (iso : String)

mutual

/-- Structural equality on `Value` (Python `==` restricted to same-type
comparisons; the library only ever compares ids and keys of one type). -/
def Value.beq : Value → Value → Bool
  | .vNull, .vNull => true
  | .vBool x, .vBool y => x = y
  | .vInt x, .vInt y => x = y
  | .vFloat x, .vFloat y => x = y
  | .vStr x, .vStr y => x = y
  | .vDate x, .vDate y => x = y
  | .vList xs, .vList ys => Value.beqList xs ys
  | .vDict fs, .vDict gs => Value.beqFields fs gs
  | _, _ => false
termination_by structural a => a

def Value.beqList : List Value → List Value → Bool
  | [], [] => true
  | x :: xs, y :: ys => Value.beq x y && Value.beqList xs ys
  | _, _ => false
termination_by structural a => a

def Value.beqFields : List (String × Value) → List (String × Value) → Bool
  | [], [] => true
  | (k, v) :: xs, (l, w) :: ys => k = l && Value.beq v w && Value.beqFields xs ys
  | _, _ => false
termination_by structural a => a

end

mutual

def Value.beq_iff : ∀ (a b : Value), Value.beq a b = true ↔ a = b
  | .vNull, .vNull => by simp [Value.beq]
  | .vBool _, .vBool _ => by simp [Value.beq]
  | .vInt _, .vInt _ => by simp [Value.beq]
  | .vFloat _, .vFloat _ => by simp [Value.beq]
  | .vStr _, .vStr _ => by simp [Value.beq]
  | .vDate _, .vDate _ => by simp [Value.beq]
  | .vList xs, .vList ys => by simp [Value.beq, Value.beqList_iff xs ys]
  | .vDict fs, .vDict gs => by simp [Value.beq, Value.beqFields_iff fs gs]
  | .vNull, .vBool _ | .vNull, .vInt _ | .vNull, .vFloat _ | .vNull, .vStr _
  | .vNull, .vList _ | .vNull, .vDict _ | .vNull, .vDate _
  | .vBool _, .vNull | .vBool _, .vInt _ | .vBool _, .vFloat _ | .vBool _, .vStr _
  | .vBool _, .vList _ | .vBool _, .vDict _ | .vBool _, .vDate _
  | .vInt _, .vNull | .vInt _, .vBool _ | .vInt _, .vFloat _ | .vInt _, .vStr _
  | .vInt _, .vList _ | .vInt _, .vDict _ | .vInt _, .vDate _
  | .vFloat _, .vNull | .vFloat _, .vBool _ | .vFloat _, .vInt _ | .vFloat _, .vStr _
  | .vFloat _, .vList _ | .vFloat _, .vDict _ | .vFloat _, .vDate _
  | .vStr _, .vNull | .vStr _, .vBool _ | .vStr _, .vInt _ | .vStr _, .vFloat _
  | .vStr _, .vList _ | .vStr _, .vDict _ | .vStr _, .vDate _
  | .vList _, .vNull | .vList _, .vBool _ | .vList _, .vInt _ | .vList _, .vFloat _
  | .vList _, .vStr _ | .vList _, .vDict _ | .vList _, .vDate _
  | .vDict _, .vNull | .vDict _, .vBool _ | .vDict _, .vInt _ | .vDict _, .vFloat _
  | .vDict _, .vStr _ | .vDict _, .vList _ | .vDict _, .vDate _
  | .vDate _, .vNull | .vDate _, .vBool _ | .vDate _, .vInt _ | .vDate _, .vFloat _
  | .vDate _, .vStr _ | .vDate _, .vList _ | .vDate _, .vDict _ => by simp [Value.beq]
termination_by structural a => a

def Value.beqList_iff : ∀ (a b : List Value), Value.beqList a b = true ↔ a = b
  | [], [] => by simp [Value.beqList]
  | [], _ :: _ => by simp [Value.beqList]
  | _ :: _, [] => by simp [Value.beqList]
  | x :: xs, y :: ys => by
      simp [Value.beqList, Value.beq_iff x y, Value.beqList_iff xs ys]
termination_by structural a => a

def Value.beqFields_iff : ∀ (a b : List (String × Value)), Value.beqFields a b = true ↔ a = b
  | [], [] => by simp [Value.beqFields]
  | [], _ :: _ => by simp [Value.beqFields]
  | _ :: _, [] => by simp [Value.beqFields]
  | (k, v) :: xs, (l, w) :: ys => by
      simp [Value.beqFields, Value.beq_iff v w, Value.beqFields_iff xs ys, and_assoc]
termination_by structural a => a

end

instance : DecidableEq Value := fun a b =>
  if h : Value.beq a b = true then isTrue ((Value.beq_iff a b).mp h)
  else isFalse (fun he => h ((Value.beq_iff a b).mpr he))

/-- A database row / Python dict with string keys, in insertion order. -/
abbrev Row := List (String × Value)

/-- Python truthiness (`bool(v)`). -/
def truthy : Value → Bool
  | .vNull => false
  | .vBool b => b
  | .vInt n => n ≠ 0
  | .vFloat q => q ≠ 0
  | .vStr s => s ≠ ""
  | .vList xs => ¬ xs.isEmpty
  | .vDict fs => ¬ fs.isEmpty
  | .vDate _ => true

/-- Truthiness of an optional string entry from a Python dict (`d.get(k)`). -/
def truthyOptStr : Option String → Bool
  | some s => s ≠ ""
  | none => false

/-- Truthiness of an optional list entry from a Python dict. -/
def truthyOptList {α : Type} : Option (List α) → Bool
  | some l => ¬ l.isEmpty
  | none => false

/-- Truthiness of an optional `Value` entry from a Python dict. -/
def truthyOptVal : Option Value → Bool
  | some v => truthy v
  | none => false

/-- First-occurrence association lookup (Python `d[k]` / `d.get(k)`). -/
def alistGet {κ α : Type} [DecidableEq κ] : List (κ × α) → κ → Option α
  | [], _ => none
  | (k', v) :: tl, k => if k' = k then some v else alistGet tl k

/-- Python `d[k] = v`: overwrite in place keeping insertion order, else append. -/
def alistSet {κ α : Type} [DecidableEq κ] : List (κ × α) → κ → α → List (κ × α)
  | [], k, v => [(k, v)]
  | (k', v') :: tl, k, v => if k' = k then (k, v) :: tl else (k', v') :: alistSet tl k v

/-- Python `d.pop(k, None)`. -/
def dictPop (d : Row) (k : String) : Row :=
  d.filter (fun kv => decide (kv.1 ≠ k))

/-- Python `s[:-2]`: drop the last two characters. -/
def pyTrim2 (s : String) : String :=
  String.mk s.data.dropLast.dropLast

/-- Python `sep.join(parts)`. -/
def pyJoin (sep : String) : List String → String
  | [] => ""
  | [x] => x
  | x :: y :: tl => x ++ sep ++ pyJoin sep (y :: tl)

/-- Number of `%` characters in a string.  The builder only ever emits `%` as
part of a `%s` placeholder, so on input text free of `%` this counts emitted
placeholders. -/
def countPct (s : String) : Nat :=
  s.data.countP (fun c => c = '%')

/-- A string contributing no placeholder characters. -/
def pctFree (s : String) : Prop := countPct s = 0

/-- Truncation of a rational toward zero (Python `int(float)`). -/
def ratTrunc (q : ℚ) : Int :=
  q.num.tdiv (q.den : Int)

mutual

/-- Model of Python `repr(v)` for the value domain (used by `str` on
containers).  An external-collaborator model: claims never depend on its
exact text. -/
def pyRepr : Value → String
  | .vNull => "None"
  | .vBool b => if b then "True" else "False"
  | .vInt n => toString n
  | .vFloat q => if q.den = 1 then toString q.num ++ ".0" else toString q
  | .vStr s => "'" ++ s ++ "'"
  | .vDate iso => iso
  | .vList xs => "[" ++ pyReprList xs ++ "]"
  | .vDict fs => "\x7b" ++ pyReprFields fs ++ "\x7d"
termination_by structural a => a

def pyReprList : List Value → String
  | [] => ""
  | [x] => pyRepr x
  | x :: y :: tl => pyRepr x ++ ", " ++ pyReprList (y :: tl)
termination_by structural a => a

def pyReprFields : List (String × Value) → String
  | [] => ""
  | [(k, v)] => "'" ++ k ++ "': " ++ pyRepr v
  | (k, v) :: y :: tl => "'" ++ k ++ "': " ++ pyRepr v ++ ", " ++ pyReprFields (y :: tl)
termination_by structural a => a

end

/-- Model of Python `str(v)` (f-string interpolation). -/
def pyStr : Value → String
  | .vStr s => s
  | v => pyRepr v

/-- Python `int(v)`. -/
def pyInt : Value → Except String Int
  | .vBool b => .ok (if b then 1 else 0)
  | .vInt n => .ok n
  | .vFloat q => .ok (ratTrunc q)
  | .vStr s =>
    match s.toInt? with
    | some n => .ok n
    | none => .error ("ValueError: invalid literal for int() with base 10: " ++ s)
  | _ => .error "TypeError: int() argument must be a string or a number"

/-- Numeric coercion used by Python's `/` operator. -/
def toRatNum : Value → Except String ℚ
  | .vBool b => .ok (if b then 1 else 0)
  | .vInt n => .ok (n : ℚ)
  | .vFloat q => .ok q
  | _ => .error "TypeError: unsupported operand type(s) for /"

/-- Python iteration over a value (`len(v)` / `list(v)` / `extend(v)`):
lists yield elements, strings yield characters, dicts yield keys. -/
def toPyList : Value → Except String (List Value)
  | .vList xs => .ok xs
  | .vStr s => .ok (s.data.map (fun c => .vStr (String.mk [c])))
  | .vDict fs => .ok (fs.map (fun kv => .vStr kv.1))
  | _ => .error "TypeError: object is not iterable"

/-- Python `s.isdigit()` (ASCII digits). -/
def isdigitStr (s : String) : Bool :=
  s ≠ "" && s.data.all Char.isDigit

/-- Python `s.replace('.', '', 1)` on the character list. -/
def removeFirstDot : List Char → List Char
  | [] => []
  | c :: tl => if c = '.' then tl else c :: removeFirstDot tl

/-- Parse a decimal numeral with at most one dot into a rational
(model of Python `float(s)` on strings that pass the library's digit check). -/
def decimalToQ (s : String) : Option ℚ :=
  match s.split (fun c => c = '.') with
  | [a] => a.toNat?.map (fun n => (n : ℚ))
  | [a, b] =>
    let ai := if a = "" then some 0 else a.toNat?
    let bi := if b = "" then some 0 else b.toNat?
    match ai, bi with
    | some x, some y => some ((x : ℚ) + (y : ℚ) / ((10 : ℚ) ^ b.length))
    | _, _ => none
  | _ => none

/-! ## External collaborator: the `json` module -/

/-- Whitespace skipping for the JSON reader. -/
def skipWs (cs : List Char) : List Char :=
  cs.dropWhile (fun c => c = ' ' || c = '\n' || c = '\t' || c = '\r')

/-- Read a JSON number token (digits, optional sign, optional dot). -/
def jsonNumOf (tok : String) : Except String Value :=
  let core := if tok.startsWith "-" then tok.drop 1 else tok
  let sign : ℚ := if tok.startsWith "-" then -1 else 1
  if core.data.any (fun c => c = '.') then
    match decimalToQ core with
    | some q => .ok (.vFloat (sign * q))
    | none => .error "ValueError: invalid number"
  else
    match core.toNat? with
    | some n => .ok (.vInt (if tok.startsWith "-" then -(n : Int) else (n : Int)))
    | none => .error "ValueError: invalid number"

mutual

/-- Fuel-indexed JSON reader (model of Python `json.loads`, an external
standard-library collaborator; escapes and exponents are not modelled and
simply fail, which the cast engine treats like any parse failure). -/
def jsonParse : Nat → List Char → Except String (Value × List Char)
  | 0, _ => .error "ValueError: too deeply nested"
  | fuel + 1, cs0 =>
    match skipWs cs0 with
    | [] => .error "ValueError: Expecting value"
    | 'n' :: 'u' :: 'l' :: 'l' :: rest => .ok (.vNull, rest)
    | 't' :: 'r' :: 'u' :: 'e' :: rest => .ok (.vBool true, rest)
    | 'f' :: 'a' :: 'l' :: 's' :: 'e' :: rest => .ok (.vBool false, rest)
    | '"' :: rest =>
      let body := rest.takeWhile (fun c => c ≠ '"' && c ≠ '\\')
      let rest2 := rest.drop body.length
      (match rest2 with
       | '"' :: tail => .ok (.vStr (String.mk body), tail)
       | _ => .error "ValueError: unterminated string")
    | '[' :: rest =>
      (match skipWs rest with
       | ']' :: tail => .ok (.vList [], tail)
       | _ => do
          let (xs, tail) ← jsonParseItems fuel rest
          .ok (.vList xs, tail))
    | '\x7b' :: rest =>
      (match skipWs rest with
       | '\x7d' :: tail => .ok (.vDict [], tail)
       | _ => do
          let (fs, tail) ← jsonParsePairs fuel rest
          .ok (.vDict fs, tail))
    | c :: rest =>
      if c.isDigit || c = '-' then
        let tok := (c :: rest).takeWhile (fun ch => ch.isDigit || ch = '-' || ch = '.')
        do
          let v ← jsonNumOf (String.mk tok)
          .ok (v, (c :: rest).drop tok.length)
      else .error "ValueError: Expecting value"

/-- JSON array items, comma separated, terminated by `]`. -/
def jsonParseItems : Nat → List Char → Except String (List Value × List Char)
  | 0, _ => .error "ValueError: too deeply nested"
  | fuel + 1, cs => do
    let (v, rest) ← jsonParse fuel cs
    match skipWs rest with
    | ',' :: tail => do
        let (vs, rest2) ← jsonParseItems fuel tail
        .ok (v :: vs, rest2)
    | ']' :: tail => .ok ([v], tail)
    | _ => .error "ValueError: Expecting ',' delimiter"

/-- JSON object members, comma separated, terminated by the closing brace. -/
def jsonParsePairs : Nat → List Char → Except String (List (String × Value) × List Char)
  | 0, _ => .error "ValueError: too deeply nested"
  | fuel + 1, cs => do
    match skipWs cs with
    | '"' :: rest =>
      let body := rest.takeWhile (fun c => c ≠ '"' && c ≠ '\\')
      let rest2 := rest.drop body.length
      (match rest2 with
       | '"' :: tail =>
          (match skipWs tail with
           | ':' :: tail2 => do
              let (v, rest3) ← jsonParse fuel tail2
              (match skipWs rest3 with
               | ',' :: tail3 => do
                  let (fs, rest4) ← jsonParsePairs fuel tail3
                  .ok ((String.mk body, v) :: fs, rest4)
               | '\x7d' :: tail3 => .ok ([(String.mk body, v)], tail3)
               | _ => .error "ValueError: Expecting ',' delimiter")
           | _ => .error "ValueError: Expecting ':' delimiter")
       | _ => .error "ValueError: unterminated string")
    | _ => .error "ValueError: Expecting property name"

end

/-- Model of Python `json.loads`. -/
def json_loads (s : String) : Except String Value := do
  let (v, rest) ← jsonParse (s.length + 1) s.data
  match skipWs rest with
  | [] => .ok v
  | _ => .error "ValueError: Extra data"

mutual

/-- Model of Python `json.dumps`: fails (`TypeError`) on values that are not
JSON serializable, such as `datetime` objects. -/
def json_dumps : Value → Except String String
  | .vNull => .ok "null"
  | .vBool b => .ok (if b then "true" else "false")
  | .vInt n => .ok (toString n)
  | .vFloat q => .ok (if q.den = 1 then toString q.num ++ ".0" else toString q)
  | .vStr s => .ok ("\"" ++ s ++ "\"")
  | .vDate _ => .error "TypeError: Object of type datetime is not JSON serializable"
  | .vList xs => do
      let parts ← json_dumpsList xs
      .ok ("[" ++ pyJoin ", " parts ++ "]")
  | .vDict fs => do
      let parts ← json_dumpsFields fs
      .ok ("\x7b" ++ pyJoin ", " parts ++ "\x7d")
termination_by structural a => a

def json_dumpsList : List Value → Except String (List String)
  | [] => .ok []
  | x :: tl => do
      let s ← json_dumps x
      let rest ← json_dumpsList tl
      .ok (s :: rest)
termination_by structural a => a

def json_dumpsFields : List (String × Value) → Except String (List String)
  | [] => .ok []
  | (k, v) :: tl => do
      let s ← json_dumps v
      let rest ← json_dumpsFields tl
      .ok (("\"" ++ k ++ "\": " ++ s) :: rest)
termination_by structural a => a

end

/-! ## External collaborator: `datetime` -/

/-- Shape check for an ISO date `YYYY-MM-DD` (model of the validation done by
`datetime.datetime.fromisoformat`). -/
def isoDateOk : List Char → Bool
  | [y1, y2, y3, y4, '-', m1, m2, '-', d1, d2] =>
    [y1, y2, y3, y4, m1, m2, d1, d2].all Char.isDigit &&
      (let mm := (String.mk [m1, m2]).toNat?.getD 0
       let dd := (String.mk [d1, d2]).toNat?.getD 0
       1 ≤ mm && mm ≤ 12 && 1 ≤ dd && dd ≤ 31)
  | _ => false

/-- Shape check for an ISO time `HH:MM:SS` following a date. -/
def isoTimeOk : List Char → Bool
  | [sep, h1, h2, ':', m1, m2, ':', s1, s2] =>
    (sep = 'T' || sep = ' ') && [h1, h2, m1, m2, s1, s2].all Char.isDigit &&
      (let hh := (String.mk [h1, h2]).toNat?.getD 0
       let mi := (String.mk [m1, m2]).toNat?.getD 0
       let ss := (String.mk [s1, s2]).toNat?.getD 0
       hh ≤ 23 && mi ≤ 59 && ss ≤ 59)
  | _ => false

/-- Model of Python `datetime.datetime.fromisoformat`. -/
def fromisoformat (s : String) : Except String Value :=
  if isoDateOk (s.data.take 10) && (s.length = 10 || isoTimeOk (s.data.drop 10)) then
    .ok (.vDate s)
  else
    .error ("ValueError: Invalid isoformat string: " ++ s)

/-! ## `sqlython/filter.py` -/

/-- `filter.columns`: project a mapping down to the fillable/guarded policy.
A key is kept iff (`fillable` empty or key in it) and (`guarded` empty or key
not in it). -/
def columns (obj : Row) (fillable : List String := []) (guarded : List String := []) : Row :=
  obj.filter (fun kv =>
    (fillable.isEmpty || fillable.contains kv.1) &&
    (guarded.isEmpty || !(guarded.contains kv.1)))

/-- The conversion attempted inside the `try` of `filter.casts` for one field:
the `if reverse: ... else: ...` ladder of builtin conversions.  An `.error`
models an exception reaching the surrounding `except` clause; a tag with no
branch leaves the value untouched. -/
def castValue (reverse : Bool) (tag : String) (value : Value) : Except String Value :=
  if reverse then
    if tag = "json" then
      match value with
      | .vDict _ | .vList _ => do .ok (.vStr (← json_dumps value))
      | _ => .ok .vNull
    else if tag = "boolean" then
      .ok (.vInt (match value with | .vBool true => 1 | _ => 0))
    else if tag = "date" then
      .ok (match value with | .vDate iso => .vStr iso | _ => .vNull)
    else if tag = "number" ∨ tag = "float" then
      .ok (match value with
           | .vInt n => .vFloat (n : ℚ)
           | .vFloat q => .vFloat q
           | .vBool b => .vFloat (if b then 1 else 0)
           | _ => .vNull)
    else if tag = "string" then
      .ok (match value with | .vNull => .vNull | v => .vStr (pyStr v))
    else .ok value
  else
    if tag = "json" then
      match value with
      | .vStr s => if s ≠ "" then json_loads s else .ok .vNull
      | _ => .ok .vNull
    else if tag = "boolean" then
      .ok (match value with
           | .vBool b => .vBool b
           | .vInt n => .vBool (n ≠ 0)
           | .vStr s => if isdigitStr s then .vBool (s.toNat?.getD 0 ≠ 0) else .vNull
           | _ => .vNull)
    else if tag = "date" then
      match value with
      | .vStr s => fromisoformat s
      | _ => .ok .vNull
    else if tag = "number" ∨ tag = "float" then
      .ok (match value with
           | .vInt n => .vFloat (n : ℚ)
           | .vFloat q => .vFloat q
           | .vBool b => .vFloat (if b then 1 else 0)
           | .vStr s =>
             if isdigitStr (String.mk (removeFirstDot s.data)) then
               .vFloat ((decimalToQ s).getD 0)
             else .vNull
           | _ => .vNull)
    else if tag = "string" then
      .ok (match value with | .vNull => .vNull | v => .vStr (pyStr v))
    else .ok value

/-- One field of `filter.casts`: run the conversion; the `except
(ValueError, TypeError, AttributeError)` clause replaces the value by `None`
on failure (after logging a warning). -/
def applyCastField (reverse : Bool) (tag : String) (value : Value) : Value :=
  match castValue reverse tag value with
  | .ok v => v
  | .error _ => .vNull

/-- `filter.casts`: for each field of the cast table present in the row,
convert it in place, degrading to null on failure. -/
def casts (obj : Row) (cast : List (String × String) := []) (reverse : Bool := false) : Row :=
  cast.foldl (fun obj ft =>
    match alistGet obj ft.1 with
    | some value => alistSet obj ft.1 (applyCastField reverse ft.2 value)
    | none => obj) obj

/-! ## `sqlython/builder.py` -/

/-- A join entry of the query description
(`{'table', 'first', 'operator', 'second', 'type'}`). -/
structure Join where
  table : String
  first : String
  operator : String
  second : String
  type : String
  deriving DecidableEq

/-- The `order_by` entry (`{'field', 'direction'}`). -/
structure OrderBy where
  field : String
  direction : String
  deriving DecidableEq

/-- One `where` clause dict.  A raw clause built by `where_raw` carries only
`raw` and `chain`; a structured clause carries `field`, `operator`, `value`
and `chain`.  (Reading `field` of a clause whose only key is an empty `raw`
string would be a `KeyError` in Python; that corner carries defaults here and
is never exercised.) -/
structure WhereClause where
  raw : Option String := none
  field : String := ""
  operator : String := ""
  value : Value := .vNull
  chain : String := "AND"
  deriving DecidableEq

/-- The accumulated query description (`cls.__query` as seen by the builder).
Each field is `Option`al to model presence of the dict key; `.get` truthiness
treats an absent key and a falsy value alike. -/
structure Query where
  raw_query : Option String := none
  action : Option String := none
  select : Option (List String) := none
  joins : Option (List Join) := none
  where_ : Option (List WhereClause) := none
  order_by : Option OrderBy := none
  group_by : Option (List String) := none
  limit : Option Value := none
  offset : Option Value := none
  data : Option Row := none
  with_trashed : Bool := false
  deriving DecidableEq

/-- The compiled result `{'sql': ..., 'bindings': ...}`. -/
structure BuiltQuery where
  sql : String
  bindings : List Value
  deriving DecidableEq

/-- Auto-qualify a field with the primary table when it has no dot
(`if '.' not in f: f = f'{table}.{f}'`). -/
def qualify (table f : String) : String :=
  if f.data.contains '.' then f else table ++ "." ++ f

/-- The body of `write_where` for one structured (non-raw) clause: the SQL
fragment it appends and the bindings it contributes, in order. -/
def write_where_clause (table : String) (clause : WhereClause) : Except String (String × List Value) :=
  let new_field := qualify table clause.field
  if clause.operator = "IN" ∨ clause.operator = "NOT IN" then do
    let vals ← toPyList clause.value
    let placeholders := pyJoin ", " (vals.map (fun _ => "%s"))
    .ok (" " ++ new_field ++ " " ++ clause.operator ++ " (" ++ placeholders ++ ")", vals)
  else if clause.operator = "IS" ∨ clause.operator = "IS NOT" then
    .ok (" " ++ new_field ++ " " ++ clause.operator ++ " " ++ pyStr clause.value, [])
  else
    .ok (" " ++ new_field ++ " " ++ clause.operator ++ " %s", [clause.value])

/-- The `for i, clause in enumerate(where)` loop of `write_where`: the chain
token is emitted for every index `i > 0`, before the raw check; a truthy raw
clause is spliced verbatim with no binding. -/
def write_where_aux (table : String) : Nat → List WhereClause → Except String (String × List Value)
  | _, [] => .ok ("", [])
  | i, clause :: rest => do
    let chainSql := if i > 0 then " " ++ clause.chain else ""
    let (clauseSql, clauseBindings) ←
      if truthyOptStr clause.raw then
        pure (" " ++ clause.raw.getD "", ([] : List Value))
      else
        write_where_clause table clause
    let (restSql, restBindings) ← write_where_aux table (i + 1) rest
    .ok (chainSql ++ clauseSql ++ restSql, clauseBindings ++ restBindings)

/-- `write_where` from `builder.query_builder`. -/
def write_where (table : String) (w : List WhereClause) : Except String (String × List Value) :=
  write_where_aux table 0 w

/-- The `SET` loop of `query_builder` over `query['data']`: each entry emits
`field = NULL, ` for `None`, `field = 1, `/`field = 0, ` for booleans (no
binding either way), and `field = %s, ` with a binding otherwise; the caller
trims the trailing separator. -/
def setClause : Row → String × List Value
  | [] => ("", [])
  | (f, v) :: tl =>
    let (s, b) := setClause tl
    match v with
    | .vNull => (f ++ " = NULL, " ++ s, b)
    | .vBool bb => (f ++ " = " ++ (if bb then "1" else "0") ++ ", " ++ s, b)
    | v => (f ++ " = %s, " ++ s, v :: b)

/-- One join rendered by `query_builder` (`first`/`second` auto-qualified to
the primary/joined table). -/
def joinSql (table : String) (j : Join) : String :=
  let first := if j.first.data.contains '.' then j.first else table ++ "." ++ j.first
  let second := if j.second.data.contains '.' then j.second else j.table ++ "." ++ j.second
  " " ++ j.type ++ " JOIN " ++ j.table ++ " ON " ++ first ++ " " ++ j.operator ++ " " ++ second

/-- `builder.query_builder(table, query)`: compile the query description into
`{'sql', 'bindings'}`.  Raises (`.error`) exactly where the Python code
raises. -/
def query_builder (table : String) (query : Query) : Except String BuiltQuery := do
  if truthyOptStr query.raw_query then
    return ⟨query.raw_query.getD "", []⟩
  let action := query.action.getD "select"
  -- branch on the action, building the statement head
  let head ←
    if action = "select" then
      let cols :=
        if truthyOptList query.select then pyJoin ", " (query.select.getD [])
        else
          table ++ ".*" ++
            (if truthyOptList query.joins then
              String.join ((query.joins.getD []).map (fun j => ", " ++ j.table ++ ".*"))
            else "")
      pure ("SELECT " ++ cols ++ " FROM " ++ table)
    else if action = "insert" then
      if ¬ truthyOptList query.data then throw "Insert query must have data!"
      else pure ("INSERT INTO " ++ table)
    else if action = "update" then
      if ¬ truthyOptList query.data then throw "Update query must have data!"
      else pure ("UPDATE " ++ table)
    else if action = "delete" then
      if ¬ truthyOptList query.where_ then throw "Delete query must have where clause!"
      else pure ("DELETE FROM " ++ table)
    else throw "Invalid __query.action"
  -- SET clause for update/insert, with the trailing ', ' trimmed off
  let (sql1, bindings1) :=
    if action = "update" ∨ action = "insert" then
      let (s, b) := setClause (query.data.getD [])
      (pyTrim2 (head ++ " SET " ++ s), b)
    else (head, [])
  -- joins
  let sql2 :=
    if truthyOptList query.joins then
      sql1 ++ String.join ((query.joins.getD []).map (joinSql table))
    else sql1
  -- where
  let (sql3, bindings3) ←
    if truthyOptList query.where_ then do
      let (wsql, wbind) ← write_where table (query.where_.getD [])
      pure (sql2 ++ " WHERE" ++ wsql, bindings1 ++ wbind)
    else pure (sql2, bindings1)
  -- order by (direction normalized, field auto-qualified)
  let sql4 :=
    match query.order_by with
    | some ob =>
      let direction := if ob.direction = "ASC" ∨ ob.direction = "DESC" then ob.direction else "ASC"
      sql3 ++ " ORDER BY " ++ qualify table ob.field ++ " " ++ direction
    | none => sql3
  -- group by
  let sql5 :=
    if truthyOptList query.group_by then
      sql4 ++ " GROUP BY " ++ pyJoin ", " (query.group_by.getD [])
    else sql4
  -- limit / offset, both parameter-bound and coerced with int(...)
  if truthyOptVal query.limit then
    let ln ← pyInt (query.limit.getD .vNull)
    if truthyOptVal query.offset then
      let on_ ← pyInt (query.offset.getD .vNull)
      return ⟨sql5 ++ " LIMIT %s" ++ " OFFSET %s", bindings3 ++ [.vInt ln, .vInt on_]⟩
    else
      return ⟨sql5 ++ " LIMIT %s", bindings3 ++ [.vInt ln]⟩
  else
    return ⟨sql5, bindings3⟩

/-! ## `sqlython/model.py` -/

/-- The declarative model metadata (class attributes of a `Model` subclass).
Read-only from the core's perspective. -/
structure ModelCfg where
  table : String := ""
  primary_key : String := "id"
  fillable : List String := []
  guarded : List String := []
  hidden : List String := []
  timestamp : Bool := true
  soft_delete : Bool := false
  per_page : Int := 10
  casts : List (String × String) := []

/-- An eager-load relation spec.  The related model is represented by its
metadata; the customization callback transforms the related model's freshly
cleared builder-level query (it cannot re-add nested relations, which the
fetched related model also has cleared before the callback runs). -/
structure Relation where
  model : ModelCfg
  foreignKey : String
  localKey : String
  identifier : String
  type : String
  callback : Option (Query → Query) := none

/-- The full model-level query state: the builder-level `Query` plus the
`relations` entry (which `query_builder` ignores). -/
structure QState extends Query where
  relations : Option (List Relation) := none

/-- What the database cursor exposes after `execute`: modelled outcome of the
external connection collaborator. -/
structure CursorResult where
  lastrowid : Value := .vNull
  rowcount : Value := .vInt 0
  rows : List Row := []
  deriving DecidableEq

/-- The database oracle: maps (sql, bindings) to a cursor outcome or a raised
execution error. -/
abbrev DB := String → List Value → Except String CursorResult

/-- `Model._execute`: run the statement and shape the result by action
(insert → insert id, update/delete → affected rows, otherwise fetchall).
Connection acquisition, commit and release are resource management on the
external collaborator and are not modelled. -/
inductive ExecData where
  | dict (d : Row)
  | rows (rs : List Row)
  deriving DecidableEq

def Model._execute (db : DB) (action : String) (query : String) (bindings : List Value) :
    Except String ExecData := do
  let cur ← db query bindings
  if action = "insert" then
    return .dict [("insert_id", cur.lastrowid)]
  else if action = "update" ∨ action = "delete" then
    return .dict [("affected_rows", cur.rowcount)]
  else
    return .rows cur.rows

/-- The id-collection loop of `Model._process` (lines 110–115): gather the
distinct non-null values of `main_field` over the fetched rows, raising when
the field is missing from a row. -/
def Model.collectIds (table main_field : String) : List Row → List Value → Except String (List Value)
  | [], ids => .ok ids
  | row :: rest, ids =>
    match alistGet row main_field with
    | none => .error ("Field `" ++ main_field ++ "` does not exist in model `" ++ table ++ "` result!")
    | some v =>
      if v ≠ .vNull ∧ v ∉ ids then Model.collectIds table main_field rest (ids ++ [v])
      else Model.collectIds table main_field rest ids

/-- The per-relation index built by `Model._process`: the empty default, the
parent-side key, and the related rows indexed by their `related_field`
value. -/
structure RelIndex where
  empty : Value
  key : String
  data : List (Value × Value)
  deriving DecidableEq

/-- The one-to-one indexing loop (lines 134–137): index each related row by
its `related_field` value (last write wins); a falsy value under
`related_field` — including a missing field — raises. -/
def Model.indexSingular (related_field : String) : List Row → List (Value × Value) →
    Except String (List (Value × Value))
  | [], acc => .ok acc
  | row :: rest, acc =>
    if ¬ truthy ((alistGet row related_field).getD .vNull) then
      .error ("Field `" ++ related_field ++ "` is not exist in relation result!")
    else
      Model.indexSingular related_field rest
        (alistSet acc ((alistGet row related_field).getD .vNull) (.vDict row))

/-- The one-to-many indexing loop (lines 142–147): accumulate related rows in
a list per `related_field` value; same falsy-field check. -/
def Model.indexPlural (related_field : String) : List Row → List (Value × Value) →
    Except String (List (Value × Value))
  | [], acc => .ok acc
  | row :: rest, acc =>
    if ¬ truthy ((alistGet row related_field).getD .vNull) then
      .error ("Field `" ++ related_field ++ "` is not exist in relation result!")
    else
      let k := (alistGet row related_field).getD .vNull
      let cur := match alistGet acc k with | some (.vList xs) => xs | _ => []
      Model.indexPlural related_field rest (alistSet acc k (.vList (cur ++ [.vDict row])))

/-- Lines 129–147 of `Model._process`: build the `data_relation` entry for one
relation from the fetched related rows. -/
def Model.buildRelIndex (rel_type related_field main_field : String) (results : List Row) :
    Except String RelIndex :=
  if rel_type = "belongsTo" ∨ rel_type = "hasOne" then do
    let d ← Model.indexSingular related_field results []
    .ok ⟨.vNull, main_field, d⟩
  else do
    let d ← Model.indexPlural related_field results []
    .ok ⟨.vList [], main_field, d⟩

/-- Lines 157–160 of `Model._process` for a single relation entry: look the
parent row's key value up in the index and attach the match, or the empty
default, under the relation's identifier. -/
def Model.attachOne (row : Row) (identifier : String) (ri : RelIndex) : Except String Row :=
  match alistGet row ri.key with
  | none => .error ("KeyError: " ++ ri.key)
  | some key => .ok (alistSet row identifier ((alistGet ri.data key).getD ri.empty))

/-- The `for identifier, relation in data_relation.items()` loop of
`Model._process` applied to one row.  (The source's `if identifier in
data_relation` test inside the loop is always true and is dropped.) -/
def Model.attachRelations (data_relation : List (String × RelIndex)) (row : Row) :
    Except String Row :=
  data_relation.foldlM (fun row ir => Model.attachOne row ir.1 ir.2) row

/-- `Model.where_null(field)` as a state transformation: append an
`IS NULL` clause. -/
def Model.where_nullQ (st : QState) (field : String) : QState :=
  { st with where_ := some ((st.where_.getD []) ++
      [{ field := field, operator := "IS", value := .vStr "NULL", chain := "AND" }]) }

/-- `Model.where_in(field, values)` on the builder-level query. -/
def Model.where_inQ (q : Query) (field : String) (values : List Value) : Query :=
  { q with where_ := some ((q.where_.getD []) ++
      [{ field := field, operator := "IN", value := .vList values, chain := "AND" }]) }

/-- Lines 119–128 of `Model._process`: the related model's builder state is
cleared (`where`/`relations`/`select` set to `[]`), the optional callback is
applied, and the batched `where_in(related_field, ids)` is added. -/
def Model.relationQuery (rel : Relation) (related_field : String) (ids : List Value) : QState :=
  let q0 : Query := { where_ := some [], select := some [] }
  let q1 := match rel.callback with | some cb => cb q0 | none => q0
  let q2 := Model.where_inQ q1 related_field ids
  { toQuery := q2, relations := some [] }

/-- The state transformation of `Model.get` before `_process`: apply the
soft-delete filter unless trashed rows are requested, then set the action. -/
def Model.getQ (cfg : ModelCfg) (st : QState) : QState :=
  let st := if cfg.soft_delete ∧ ¬ st.with_trashed then Model.where_nullQ st "deleted_at" else st
  { st with action := some "select" }

/-- The relation-gathering phase of `Model._process` (lines 103–147), with the
related-model fetch abstracted (`fetchRel` performs
`model.where_in(related_field, ids).get()`). -/
def Model.buildDataRelation (fetchRel : ModelCfg → QState → Except String (Option ExecData))
    (table : String) (rels : List Relation) (rows : List Row) :
    Except String (List (String × RelIndex)) :=
  rels.foldlM (fun dr rel => do
    let main_field := if rel.type = "belongsTo" then rel.foreignKey else rel.localKey
    let ids ← Model.collectIds table main_field rows []
    if ids.isEmpty then
      return dr
    let related_field := if rel.type = "belongsTo" then rel.localKey else rel.foreignKey
    let res ← fetchRel rel.model (Model.relationQuery rel related_field ids)
    let results ← match res with
      | some (.rows rs) => pure rs
      | some (.dict d) => pure (d.map (fun kv => [("", Value.vStr kv.1)]))
      | none => throw "TypeError: NoneType object is not iterable"
    let idx ← Model.buildRelIndex rel.type related_field main_field results
    return alistSet dr rel.identifier idx) []

/-- `Model._process` with the related-model fetch abstracted.  The
`cls.__query` copy/reset bookkeeping is the caller's job in this functional
embedding: the function consumes the state it is given.  The `try`/`except`
around execution (lines 92–96) — and only around execution; the compiler runs
before it — maps an execution error to an `Ok none` result. -/
def Model.processCore (fetchRel : ModelCfg → QState → Except String (Option ExecData))
    (cfg : ModelCfg) (db : DB) (st : QState) : Except String (Option ExecData) := do
  if cfg.table = "" then
    throw "Table name is not defined"
  let _q := st
  let query ← query_builder cfg.table _q.toQuery
  let attempt : Except String ExecData :=
    match _q.action with
    | none => .error "KeyError: action"
    | some a => Model._execute db a query.sql query.bindings
  match attempt with
  | .error _e => return none
  | .ok data =>
    let action := _q.action.getD ""
    let do_cast := action == "select" && cfg.casts.length > 0
    let do_relation := action == "select" && (_q.relations.getD []).length > 0
    let do_hide_field := action == "select" && cfg.hidden.length > 0
    let dataRows := match data with | .rows rs => rs | .dict _ => []
    let data_relation ←
      if do_relation then
        Model.buildDataRelation fetchRel cfg.table (_q.relations.getD []) dataRows
      else pure []
    let dataTruthyAndNonempty :=
      match data with | .rows rs => !rs.isEmpty | .dict d => !d.isEmpty
    if dataTruthyAndNonempty && (do_cast || do_relation || do_hide_field) then do
      let result_data ← dataRows.mapM (fun row => do
        let row := if do_cast then casts row cfg.casts false else row
        let row ← if do_relation then Model.attachRelations data_relation row else pure row
        let row := if do_hide_field then cfg.hidden.foldl dictPop row else row
        return row)
      return some (.rows result_data)
    else
      return some data

/-- Fetch used at relation depth 1: the related model's `get()`.  The related
model's own relations were cleared, so its `_process` never fetches further;
the unreachable deeper fetch is modelled as a recursion error. -/
def Model.noFetch : ModelCfg → QState → Except String (Option ExecData) :=
  fun _ _ => .error "RecursionError: nested relation fetch is unreachable"

/-- `Model._process(cls)`: the full pipeline against the database oracle. -/
def Model._process (cfg : ModelCfg) (db : DB) (st : QState) : Except String (Option ExecData) :=
  Model.processCore
    (fun mcfg subSt => Model.processCore Model.noFetch mcfg db (Model.getQ mcfg subSt))
    cfg db st

/-- `Model.get()`. -/
def Model.get (cfg : ModelCfg) (db : DB) (st : QState) : Except String (Option ExecData) :=
  Model._process cfg db (Model.getQ cfg st)

/-- `Model.count()`: override the select list with a COUNT aggregate, fetch,
and read `total` off the first row (`0` when the result is falsy). -/
def Model.count (cfg : ModelCfg) (db : DB) (st : QState) : Except String Value := do
  let result ← Model.get cfg db { st with select := some ["COUNT(*) AS total"] }
  match result with
  | some (.rows (r0 :: _)) => return (alistGet r0 "total").getD (.vInt 0)
  | some (.rows []) => return .vInt 0
  | some (.dict d) => if d.isEmpty then return .vInt 0 else throw "KeyError: 0"
  | none => return .vInt 0

/-- `Model.insert(data)` (`now` models `datetime.datetime.now()`). -/
def Model.insert (cfg : ModelCfg) (db : DB) (now : Value) (st : QState) (data : Row) :
    Except String (Option ExecData) := do
  let d := columns data cfg.fillable cfg.guarded
  if d.isEmpty then
    return none
  let d := casts d cfg.casts true
  let d := if cfg.timestamp then alistSet d "created_at" now else d
  Model._process cfg db { st with action := some "insert", data := some d }

/-- `Model.update(data)`: filters and casts the data, returns null on empty
data, and — for safety — raises when the `where` KEY is absent
(`cls.__query.get('where') is None`); a present-but-empty clause list
passes the check. -/
def Model.update (cfg : ModelCfg) (db : DB) (now : Value) (st : QState) (data : Row) :
    Except String (Option ExecData) := do
  let d := columns data cfg.fillable cfg.guarded
  if d.isEmpty then
    return none
  let d := casts d cfg.casts true
  if st.where_ = none then
    throw "Update query must have where clause!"
  let st := if cfg.soft_delete ∧ ¬ st.with_trashed then Model.where_nullQ st "deleted_at" else st
  let d := if cfg.timestamp then alistSet d "updated_at" now else d
  Model._process cfg db { st with action := some "update", data := some d }

/-- `Model.delete()`: soft delete becomes an update stamping `deleted_at`;
hard delete compiles a DELETE (whose where-clause rail lives in the
compiler). -/
def Model.delete (cfg : ModelCfg) (db : DB) (now : Value) (st : QState) :
    Except String (Option ExecData) :=
  if cfg.soft_delete then
    let st := Model.where_nullQ st "deleted_at"
    Model._process cfg db { st with data := some [("deleted_at", now)], action := some "update" }
  else
    Model._process cfg db { st with action := some "delete" }

/-- The dictionary returned by `Model.paginate`. -/
structure PaginateResult where
  data : Option ExecData
  total : Value
  pages : Int
  page : Int
  per_page : Int
  next_page : Option Int
  prev_page : Option Int
  deriving DecidableEq

/-- `Model.paginate(page, per_page)`.  Python's `int(...)` coercion of the
two arguments is modelled by taking them as integers; a non-integer `limit`
feeding the `per_page < 1` fallback is outside the model and raises. -/
def Model.paginate (cfg : ModelCfg) (db : DB) (st0 : QState) (page0 per_page0 : Int) :
    Except String PaginateResult := do
  let page ←
    if page0 < 1 then do
      let offq ← toRatNum (st0.offset.getD (.vInt 0))
      let limq ← toRatNum (st0.limit.getD (.vInt cfg.per_page))
      if limq = 0 then throw "ZeroDivisionError: division by zero"
      else pure (ratTrunc (offq / limq + 1))
    else pure page0
  let per_page ←
    if per_page0 < 1 then
      match st0.limit.getD (.vInt cfg.per_page) with
      | .vInt n => pure n
      | _ => throw "TypeError: unsupported per_page value"
    else pure per_page0
  let st1 := { st0 with limit := some (.vInt per_page),
                        offset := some (.vInt ((page - 1) * per_page)) }
  let st2 := if cfg.soft_delete ∧ ¬ st1.with_trashed then Model.where_nullQ st1 "deleted_at" else st1
  let st3 := { st2 with action := some "select" }
  let data ← Model._process cfg db st3
  let st4 :=
    if cfg.soft_delete ∧ ¬ st3.with_trashed then
      { st3 with where_ := some ((st3.where_.getD []).dropLast) }
    else st3
  let st5 := { st4 with limit := none, offset := none }
  let total ← Model.count cfg db st5
  let tq ← toRatNum total
  if per_page = 0 then throw "ZeroDivisionError: division by zero"
  else
    let pages := ratTrunc (tq / (per_page : ℚ))
    return { data := data, total := total, pages := pages, page := page, per_page := per_page,
             next_page := if page < pages then some (page + 1) else none,
             prev_page := if 1 < page ∧ page ≤ pages then some (page - 1) else none }

/-- Concatenation of string fragments (used to state loop-accumulated text).
-/
def strConcat : List String → String
  | [] => ""
  | x :: tl => x ++ strConcat tl

/-- The effect of the one-to-many indexing loop on the entry stored under one
key: appending the matching rows to the current list (a fresh list when
nothing, or a non-list value, is stored). -/
def extendIndex : Option Value → List Row → Option Value
  | cur, [] => cur
  | some (.vList xs), rs => some (.vList (xs ++ rs.map .vDict))
  | _, rs => some (.vList (rs.map .vDict))

/-- The effect of the one-to-one indexing loop on the entry stored under one
key: the last matching row wins. -/
def lastIndex : Option Value → List Row → Option Value
  | cur, [] => cur
  | _, rs => rs.getLast?.map .vDict

/-! ## Specification-side renderings

Declarative restatements of the design document's wording about the compiler
output, to be compared against the embedded `query_builder`. -/

/-- The elements an `IN` list contributes, one binding per element (empty for
a value the compiler could not iterate). -/
def inValues (v : Value) : List Value :=
  match toPyList v with
  | .ok xs => xs
  | .error _ => []

/-- Spec: the bindings one WHERE clause contributes — none for raw and
`IS`/`IS NOT` clauses, one per element for `IN`/`NOT IN`, one otherwise. -/
def clauseBindingsSpec (c : WhereClause) : List Value :=
  if truthyOptStr c.raw then []
  else if c.operator = "IN" ∨ c.operator = "NOT IN" then inValues c.value
  else if c.operator = "IS" ∨ c.operator = "IS NOT" then []
  else [c.value]

/-- Spec: all WHERE values in clause order. -/
def specWhereBindings (w : List WhereClause) : List Value :=
  (w.map clauseBindingsSpec).flatten

/-- Spec: one SET entry — `NULL` inline for null, `1`/`0` inline for booleans,
a placeholder otherwise. -/
def specSetEntrySql (fv : String × Value) : String :=
  match fv.2 with
  | .vNull => fv.1 ++ " = NULL"
  | .vBool b => fv.1 ++ " = " ++ (if b then "1" else "0")
  | _ => fv.1 ++ " = %s"

/-- Spec: the SET data values that are parameter-bound, in mapping iteration
order (null and boolean values are inlined, not bound). -/
def setBoundVals (d : Row) : List Value :=
  d.filterMap (fun fv => match fv.2 with | .vNull => none | .vBool _ => none | v => some v)

/-- Spec: the SET list with the separator between entries (trailing separator
trimmed). -/
def specSetSql (d : Row) : String :=
  pyJoin ", " (d.map specSetEntrySql)

/-- Spec: the SET bindings a query contributes (only insert/update render a
SET list). -/
def specSetBindings (q : Query) : List Value :=
  if q.action.getD "select" = "update" ∨ q.action.getD "select" = "insert" then
    setBoundVals (q.data.getD [])
  else []

/-- Spec: the WHERE bindings a query contributes. -/
def specWhereBindingsQ (q : Query) : List Value :=
  specWhereBindings (q.where_.getD [])

/-- Spec: the LIMIT binding then the OFFSET binding, both integer-coerced,
the OFFSET one only when a truthy limit and a truthy offset are present. -/
def specLimitBindings (q : Query) : List Value :=
  if truthyOptVal q.limit then
    (match pyInt (q.limit.getD .vNull) with | .ok n => [Value.vInt n] | .error _ => []) ++
      (if truthyOptVal q.offset then
        (match pyInt (q.offset.getD .vNull) with | .ok n => [Value.vInt n] | .error _ => [])
      else [])
  else []

/-- Spec: the number of structured non-`IN` bound predicates of a WHERE list
(raw fragments and inline `IS`/`IS NOT` clauses bind nothing). -/
def nonInBoundCount (w : List WhereClause) : Nat :=
  (w.filter (fun c => !truthyOptStr c.raw &&
    !(c.operator == "IN" || c.operator == "NOT IN" || c.operator == "IS" || c.operator == "IS NOT"))).length

/-- Spec: the total number of elements of `IN`/`NOT IN` lists of a WHERE
list. -/
def inLenSum (w : List WhereClause) : Nat :=
  (w.map (fun c =>
    if !truthyOptStr c.raw && (c.operator == "IN" || c.operator == "NOT IN")
    then (inValues c.value).length else 0)).sum

/-- Clause text free of placeholder characters (fields, operators, chain
tokens, raw fragments and inline `IS` values contain no `%`). -/
def pctFreeClause (c : WhereClause) : Prop :=
  pctFree c.chain ∧ pctFree (c.raw.getD "") ∧ pctFree c.field ∧ pctFree c.operator ∧
    pctFree (pyStr c.value)

instance (s : String) : Decidable (pctFree s) := by
  unfold pctFree; infer_instance

instance (c : WhereClause) : Decidable (pctFreeClause c) := by
  unfold pctFreeClause; infer_instance

/-- Spec: the SQL fragment one WHERE clause renders (without its chain
token): raw spliced verbatim; `IN`/`NOT IN` as a parenthesized placeholder
list; `IS`/`IS NOT` with the value inline; otherwise field, operator and a
single placeholder — the field auto-qualified in each non-raw form. -/
def specClauseSql (t : String) (c : WhereClause) : String :=
  if truthyOptStr c.raw then " " ++ c.raw.getD ""
  else
    let f := qualify t c.field
    if c.operator = "IN" ∨ c.operator = "NOT IN" then
      " " ++ f ++ " " ++ c.operator ++ " (" ++ pyJoin ", " ((inValues c.value).map (fun _ => "%s")) ++ ")"
    else if c.operator = "IS" ∨ c.operator = "IS NOT" then
      " " ++ f ++ " " ++ c.operator ++ " " ++ pyStr c.value
    else
      " " ++ f ++ " " ++ c.operator ++ " %s"

/-- Spec: the clauses render in declaration order, the boolean chain token
emitted before every clause except the first. -/
def specWhereSql (t : String) : List WhereClause → String
  | [] => ""
  | c :: cs => specClauseSql t c ++ strConcat (cs.map (fun c2 => " " ++ c2.chain ++ specClauseSql t c2))

/-! ## Helper lemmas -/

theorem except_ok_bind {ε α β : Type} (a : α) (f : α → Except ε β) :
    (Except.ok a >>= f) = f a := rfl

theorem except_error_bind {ε α β : Type} (e : ε) (f : α → Except ε β) :
    ((Except.error e : Except ε α) >>= f) = .error e := rfl

theorem string_mk_data (s : String) : String.mk s.data = s := rfl

theorem countPct_append (a b : String) : countPct (a ++ b) = countPct a + countPct b := by
  simp [countPct, String.data_append, List.countP_append]

theorem pyTrim2_append_strConcat (parts : List String) (h : parts ≠ []) :
    ∀ pre : String,
      pyTrim2 (pre ++ strConcat (parts.map (fun p => p ++ ", "))) = pre ++ pyJoin ", " parts := by
  induction parts with
  | nil => simp at h
  | cons x tl ih =>
    intro pre
    cases tl with
    | nil =>
      have h2 : pre ++ strConcat ([x].map (fun p => p ++ ", ")) = (pre ++ x) ++ ", " := by
        simp [strConcat, String.append_empty, String.append_assoc]
      rw [h2]
      have h4 : ((pre ++ x) ++ ", ").data = ((pre ++ x).data ++ [',']) ++ [' '] := by
        rw [String.data_append]; simp
      show String.mk ((pre ++ x) ++ ", ").data.dropLast.dropLast = pre ++ pyJoin ", " [x]
      rw [h4, List.dropLast_concat, List.dropLast_concat, string_mk_data]
      rfl
    | cons y tl2 =>
      have h2 : pre ++ strConcat ((x :: y :: tl2).map (fun p => p ++ ", ")) =
          (pre ++ (x ++ ", ")) ++ strConcat ((y :: tl2).map (fun p => p ++ ", ")) := by
        simp [strConcat, String.append_assoc]
      rw [h2, ih (by simp) (pre ++ (x ++ ", "))]
      show (pre ++ (x ++ ", ")) ++ pyJoin ", " (y :: tl2) = pre ++ pyJoin ", " (x :: y :: tl2)
      rw [pyJoin]
      simp [String.append_assoc]

theorem alistGet_alistSet_self {κ α : Type} [DecidableEq κ] (d : List (κ × α)) (k : κ) (v : α) :
    alistGet (alistSet d k v) k = some v := by
  induction d with
  | nil => simp [alistGet, alistSet]
  | cons p tl ih =>
    by_cases h : p.1 = k
    · simp [alistSet, h, alistGet]
    · simp [alistSet, h, alistGet, ih]

theorem alistGet_alistSet_ne {κ α : Type} [DecidableEq κ] (d : List (κ × α)) (k k' : κ) (v : α)
    (h : k ≠ k') : alistGet (alistSet d k v) k' = alistGet d k' := by
  induction d with
  | nil => simp [alistGet, alistSet, h]
  | cons p tl ih =>
    by_cases h2 : p.1 = k
    · simp [alistSet, h2, alistGet, h]
    · simp [alistSet, h2, alistGet, ih]

theorem alistGet_eq_none_iff {κ α : Type} [DecidableEq κ] (d : List (κ × α)) (k : κ) :
    alistGet d k = none ↔ ∀ p ∈ d, p.1 ≠ k := by
  induction d with
  | nil => simp [alistGet]
  | cons p tl ih =>
    by_cases h : p.1 = k
    · simp [alistGet, h]
    · simp [alistGet, h, ih]

theorem write_where_clause_ok (t : String) (c : WhereClause) (s : String) (b : List Value)
    (hraw : truthyOptStr c.raw = false) (h : write_where_clause t c = .ok (s, b)) :
    s = specClauseSql t c ∧ b = clauseBindingsSpec c := by
  unfold write_where_clause at h
  by_cases hin : c.operator = "IN" ∨ c.operator = "NOT IN"
  · cases htp : toPyList c.value with
    | error e =>
      rw [if_pos hin] at h
      simp only [htp, except_error_bind] at h
      exact absurd h (by simp)
    | ok xs =>
      rw [if_pos hin] at h
      simp only [htp, except_ok_bind] at h
      simp only [Except.ok.injEq, Prod.mk.injEq] at h
      simp [specClauseSql, clauseBindingsSpec, hraw, hin, inValues, htp, ← h.1, ← h.2]
  · by_cases his : c.operator = "IS" ∨ c.operator = "IS NOT"
    · rw [if_neg hin, if_pos his] at h
      simp only [Except.ok.injEq, Prod.mk.injEq] at h
      simp [specClauseSql, clauseBindingsSpec, hraw, hin, his, ← h.1, ← h.2]
    · rw [if_neg hin, if_neg his] at h
      simp only [Except.ok.injEq, Prod.mk.injEq] at h
      simp [specClauseSql, clauseBindingsSpec, hraw, hin, his, ← h.1, ← h.2]

theorem write_where_aux_ok (t : String) :
    ∀ (cs : List WhereClause) (i : Nat) (s : String) (b : List Value),
      write_where_aux t i cs = .ok (s, b) →
      b = specWhereBindings cs ∧
        s = (if i = 0 then specWhereSql t cs
             else strConcat (cs.map (fun c => " " ++ c.chain ++ specClauseSql t c))) := by
  intro cs
  induction cs with
  | nil =>
    intro i s b h
    simp [write_where_aux] at h
    simp [← h.1, ← h.2, specWhereBindings, specWhereSql, strConcat]
  | cons c rest ih =>
    intro i s b h
    unfold write_where_aux at h
    by_cases hraw : truthyOptStr c.raw = true
    · simp only [hraw, if_pos] at h
      cases hr : write_where_aux t (i + 1) rest with
      | error e => rw [hr] at h; exact absurd h (by simp [except_error_bind])
      | ok pr =>
        obtain ⟨s2, b2⟩ := pr
        rw [hr] at h
        simp only [pure_bind, except_ok_bind, Except.ok.injEq, Prod.mk.injEq] at h
        obtain ⟨ihb, ihs⟩ := ih (i + 1) s2 b2 hr
        simp only [Nat.succ_ne_zero, if_neg, if_false] at ihs
        constructor
        · rw [← h.2, ihb]
          simp [specWhereBindings, clauseBindingsSpec, hraw]
        · rw [← h.1, ihs]
          by_cases hi : i = 0
          · subst hi
            simp only [if_pos rfl]
            show "" ++ (" " ++ c.raw.getD "") ++ _ = _
            simp [specWhereSql, specClauseSql, hraw, String.append_assoc]
          · simp only [if_neg hi]
            have hgt : i > 0 := Nat.pos_of_ne_zero hi
            simp only [if_pos hgt]
            simp [specClauseSql, hraw, String.append_assoc, strConcat]
    · simp only [eq_false_of_ne_true hraw, Bool.false_eq_true, if_false] at h
      cases hc : write_where_clause t c with
      | error e => rw [hc] at h; exact absurd h (by simp [except_error_bind])
      | ok pc =>
        obtain ⟨s1, b1⟩ := pc
        rw [hc] at h
        simp only [except_ok_bind] at h
        cases hr : write_where_aux t (i + 1) rest with
        | error e => rw [hr] at h; exact absurd h (by simp [except_error_bind])
        | ok pr =>
          obtain ⟨s2, b2⟩ := pr
          rw [hr] at h
          simp only [except_ok_bind, Except.ok.injEq, Prod.mk.injEq] at h
          obtain ⟨hs1, hb1⟩ := write_where_clause_ok t c s1 b1 (eq_false_of_ne_true hraw) hc
          obtain ⟨ihb, ihs⟩ := ih (i + 1) s2 b2 hr
          simp only [Nat.succ_ne_zero, if_neg, if_false] at ihs
          constructor
          · rw [← h.2, ihb, hb1]
            simp [specWhereBindings]
          · rw [← h.1, ihs, hs1]
            by_cases hi : i = 0
            · subst hi
              simp [specWhereSql, String.append_assoc]
            · simp only [if_neg hi]
              have hgt : i > 0 := Nat.pos_of_ne_zero hi
              simp only [if_pos hgt]
              simp [strConcat, String.append_assoc]

theorem countPct_placeholders (n : Nat) :
    countPct (pyJoin ", " (List.replicate n "%s")) = n := by
  induction n with
  | zero => rfl
  | succ m ih =>
    cases m with
    | zero => rfl
    | succ m2 =>
      show countPct ("%s" ++ ", " ++ pyJoin ", " (List.replicate (m2 + 1) "%s")) = _
      rw [countPct_append, countPct_append, ih]
      have e1 : countPct "%s" = 1 := rfl
      have e2 : countPct ", " = 0 := rfl
      omega

theorem countPct_qualify (t f : String) (ht : pctFree t) (hf : pctFree f) :
    countPct (qualify t f) = 0 := by
  unfold qualify
  by_cases h : f.data.contains '.' = true
  · rw [if_pos h]; exact hf
  · rw [if_neg h]
    rw [countPct_append, countPct_append]
    have e : countPct "." = 0 := rfl
    unfold pctFree at ht hf
    omega

theorem countPct_specClauseSql (t : String) (c : WhereClause) (ht : pctFree t)
    (hfree : pctFreeClause c) :
    countPct (specClauseSql t c) = (clauseBindingsSpec c).length := by
  obtain ⟨hch, hrw, hfd, hop, hv⟩ := hfree
  unfold pctFree at hrw hop hv
  have hq := countPct_qualify t c.field ht hfd
  have e1 : countPct " " = 0 := rfl
  have e2 : countPct " (" = 0 := rfl
  have e3 : countPct ")" = 0 := rfl
  have e4 : countPct " %s" = 1 := rfl
  unfold specClauseSql clauseBindingsSpec
  by_cases hraw : truthyOptStr c.raw = true
  · simp [hraw, countPct_append, e1, hrw]
  · simp only [eq_false_of_ne_true hraw, Bool.false_eq_true, if_false]
    by_cases hin : c.operator = "IN" ∨ c.operator = "NOT IN"
    · simp [hin, countPct_append, countPct_placeholders, e1, e2, e3, hq, hop]
    · by_cases his : c.operator = "IS" ∨ c.operator = "IS NOT"
      · simp [hin, his, countPct_append, e1, hq, hop, hv]
      · simp [hin, his, countPct_append, e1, e4, hq, hop]

theorem clauseBindingsSpec_length (c : WhereClause) :
    (clauseBindingsSpec c).length =
      (if (!truthyOptStr c.raw &&
          !(c.operator == "IN" || c.operator == "NOT IN" || c.operator == "IS" ||
            c.operator == "IS NOT")) = true
       then 1 else 0) +
      (if (!truthyOptStr c.raw && (c.operator == "IN" || c.operator == "NOT IN")) = true
       then (inValues c.value).length else 0) := by
  unfold clauseBindingsSpec
  by_cases hraw : truthyOptStr c.raw = true
  · simp [hraw]
  · have hrawf : truthyOptStr c.raw = false := eq_false_of_ne_true hraw
    by_cases hin : c.operator = "IN" ∨ c.operator = "NOT IN"
    · have hb : (c.operator == "IN" || c.operator == "NOT IN") = true := by
        rcases hin with h | h <;> simp [h]
      have hb3 : (c.operator == "IN" || c.operator == "NOT IN" || c.operator == "IS" ||
          c.operator == "IS NOT") = true := by
        rcases hin with h | h <;> simp [h]
      simp [hrawf, hin, hb, hb3]
    · have hb : (c.operator == "IN" || c.operator == "NOT IN") = false := by
        simp only [Bool.or_eq_false_iff, beq_eq_false_iff_ne]
        exact ⟨fun h => hin (Or.inl h), fun h => hin (Or.inr h)⟩
      by_cases his : c.operator = "IS" ∨ c.operator = "IS NOT"
      · have hb3 : (c.operator == "IN" || c.operator == "NOT IN" || c.operator == "IS" ||
            c.operator == "IS NOT") = true := by
          rcases his with h | h <;> simp [h]
        simp only [hrawf, Bool.false_eq_true, if_false, hin, hb, hb3, Bool.not_true,
          Bool.false_and, Bool.and_false]
        rcases his with h | h <;> simp [h]
      · have hb3 : (c.operator == "IN" || c.operator == "NOT IN" || c.operator == "IS" ||
            c.operator == "IS NOT") = false := by
          simp only [Bool.or_eq_false_iff, beq_eq_false_iff_ne]
          refine ⟨⟨⟨fun h => hin (Or.inl h), fun h => hin (Or.inr h)⟩, fun h => his (Or.inl h)⟩,
            fun h => his (Or.inr h)⟩
        have his2 := not_or.mp his
        simp [hrawf, hin, hb, hb3, his2.1, his2.2]

theorem specWhereBindings_length (w : List WhereClause) :
    (specWhereBindings w).length = nonInBoundCount w + inLenSum w := by
  induction w with
  | nil => rfl
  | cons c rest ih =>
    have h0 : (specWhereBindings (c :: rest)).length =
        (clauseBindingsSpec c).length + (specWhereBindings rest).length := by
      unfold specWhereBindings
      simp [List.map_cons, List.flatten_cons]
    have h1 : nonInBoundCount (c :: rest) =
        (if (!truthyOptStr c.raw &&
            !(c.operator == "IN" || c.operator == "NOT IN" || c.operator == "IS" ||
              c.operator == "IS NOT")) = true
         then 1 else 0) + nonInBoundCount rest := by
      unfold nonInBoundCount
      rw [List.filter_cons]
      split <;> simp [Nat.add_comm]
    have h2 : inLenSum (c :: rest) =
        (if (!truthyOptStr c.raw && (c.operator == "IN" || c.operator == "NOT IN")) = true
         then (inValues c.value).length else 0) + inLenSum rest := by
      unfold inLenSum
      simp [List.map_cons, List.sum_cons]
    rw [h0, h1, h2, ih, clauseBindingsSpec_length c]
    omega

theorem countPct_chainConcat (t : String) (w : List WhereClause) (ht : pctFree t)
    (hfree : ∀ c ∈ w, pctFreeClause c) :
    countPct (strConcat (w.map (fun c => " " ++ c.chain ++ specClauseSql t c))) =
      (specWhereBindings w).length := by
  induction w with
  | nil => rfl
  | cons c rest ih =>
    have hc := hfree c (by simp)
    have e1 : countPct " " = 0 := rfl
    show countPct ((" " ++ c.chain ++ specClauseSql t c) ++ _) = _
    rw [countPct_append, countPct_append, countPct_append,
      countPct_specClauseSql t c ht hc, ih (fun c2 h2 => hfree c2 (by simp [h2]))]
    have hch : countPct c.chain = 0 := hc.1
    unfold specWhereBindings
    simp [hch, e1]

theorem countPct_specWhereSql (t : String) (w : List WhereClause) (ht : pctFree t)
    (hfree : ∀ c ∈ w, pctFreeClause c) :
    countPct (specWhereSql t w) = (specWhereBindings w).length := by
  cases w with
  | nil => rfl
  | cons c rest =>
    show countPct (specClauseSql t c ++ _) = _
    rw [countPct_append, countPct_specClauseSql t c ht (hfree c (by simp)),
      countPct_chainConcat t rest ht (fun c2 h2 => hfree c2 (by simp [h2]))]
    unfold specWhereBindings
    simp

theorem setClause_eq (d : Row) :
    setClause d = (strConcat (d.map (fun fv => specSetEntrySql fv ++ ", ")), setBoundVals d) := by
  induction d with
  | nil => rfl
  | cons fv tl ih =>
    obtain ⟨f, v⟩ := fv
    cases v <;>
      simp [setClause, ih, specSetEntrySql, setBoundVals, strConcat, String.append_assoc,
        List.filterMap_cons]

/-- C5: for every compiled query with a non-empty where list, the clauses
render in declaration order with the boolean chain token emitted before every
clause except the first; raw clauses are spliced in verbatim with no binding;
IN/NOT IN clauses expand to a parenthesized list with one placeholder per
value element and all elements appended to bindings in order; IS/IS NOT
clauses render their value inline with no binding; every other operator
renders the auto-qualified field, the operator, and a single placeholder with
the value appended to bindings — formally, `write_where` output coincides
with the declarative per-clause rendering `specWhereSql`/`specWhereBindings`
(`%s` being the positional placeholder this dialect uses for the spec's
`?`). -/
theorem c5_where_rendering (t : String) (w : List WhereClause) (s : String) (b : List Value)
    (h : write_where t w = .ok (s, b)) :
    s = specWhereSql t w ∧ b = specWhereBindings w := by
  have h2 := write_where_aux_ok t w 0 s b h
  simp only [if_pos rfl] at h2
  exact ⟨h2.2, h2.1⟩

/-- Witness for C5, the design document's own example: compiling a WHERE list
holding one `id IN [1, 2, 3]` clause yields ` users.id IN (%s, %s, %s)` with
bindings `[1, 2, 3]`, via the theorem applied at that input. -/
theorem c5_where_rendering_witness :
    specWhereSql "users"
        [{ field := "id", operator := "IN", value := .vList [.vInt 1, .vInt 2, .vInt 3],
           chain := "AND" }] = " users.id IN (%s, %s, %s)" ∧
    specWhereBindings
        [{ field := "id", operator := "IN", value := .vList [.vInt 1, .vInt 2, .vInt 3],
           chain := "AND" }] = [.vInt 1, .vInt 2, .vInt 3] := by
  have h := c5_where_rendering "users"
    [{ field := "id", operator := "IN", value := .vList [.vInt 1, .vInt 2, .vInt 3],
       chain := "AND" }]
    " users.id IN (%s, %s, %s)" [.vInt 1, .vInt 2, .vInt 3] (by rfl)
  exact ⟨h.1.symm, h.2.symm⟩

/-- C6: for every insert (or update) compilation, the SET list renders each
data entry in mapping iteration order — a null value becomes the literal
`NULL` with no binding, a boolean becomes inline `1`/`0` with no binding,
every other value becomes a placeholder with the value appended to
bindings — and the trailing separator is trimmed; in particular inserting
`{name: "x", active: true}` into table `users` compiles to
`INSERT INTO users SET name = %s, active = 1` (dialect placeholder `%s` for
the spec's `?`) with bindings `["x"]`. -/
theorem c6_set_rendering (t : String) (d : Row) (hd : d ≠ []) :
    query_builder t { action := some "insert", data := some d } =
      .ok ⟨"INSERT INTO " ++ t ++ " SET " ++ specSetSql d, setBoundVals d⟩ ∧
    query_builder "users"
        { action := some "insert", data := some [("name", .vStr "x"), ("active", .vBool true)] } =
      .ok ⟨"INSERT INTO users SET name = %s, active = 1", [.vStr "x"]⟩ := by
  constructor
  · have hne : truthyOptList (some d) = true := by
      simp [truthyOptList, hd]
    have hmm2 : strConcat (d.map (fun fv => specSetEntrySql fv ++ ", ")) =
        strConcat ((d.map specSetEntrySql).map (fun p => p ++ ", ")) := by
      rw [List.map_map]; rfl
    have hparts : (d.map specSetEntrySql) ≠ [] := by
      simpa using hd
    unfold query_builder
    simp only [hne, truthyOptStr, truthyOptList, truthyOptVal, Option.getD_some,
      Option.getD_none, Bool.false_eq_true, if_false, if_true, Bool.not_true, reduceCtorEq,
      String.reduceEq, ite_false, ite_true, not_false_eq_true, not_true_eq_false, pure_bind,
      or_true, false_or]
    rw [setClause_eq d]
    simp only [hmm2]
    rw [pyTrim2_append_strConcat (d.map specSetEntrySql) hparts
      ("INSERT INTO " ++ t ++ " SET ")]
    have hemp : d.isEmpty = false := by simpa using hd
    simp only [hemp, specSetSql, decide_not, Bool.not_eq_true', decide_eq_false_iff_not,
      Bool.false_eq_true, not_false_eq_true, decide_eq_true_eq, Bool.not_true, if_false,
      reduceCtorEq, ite_false]
    rfl
  · rfl

/-- Witness for C6: the theorem applied at the document's example input. -/
theorem c6_set_rendering_witness :
    query_builder "users"
        { action := some "insert", data := some [("name", .vStr "x"), ("active", .vBool true)] } =
      .ok ⟨"INSERT INTO users SET name = %s, active = 1", [.vStr "x"]⟩ ∧
    specSetSql [("name", .vStr "x"), ("active", .vBool true)] = "name = %s, active = 1" ∧
    setBoundVals [("name", .vStr "x"), ("active", .vBool true)] = [.vStr "x"] :=
  ⟨(c6_set_rendering "users" [("name", .vStr "x")] (by decide)).2, by decide, by decide⟩

theorem except_pure_def {ε α : Type} (a : α) : (pure a : Except ε α) = .ok a := rfl

theorem except_throw_bind {ε α β : Type} (e : ε) (f : α → Except ε β) :
    ((throw e : Except ε α) >>= f) = .error e := rfl

theorem specWhereBindings_of_falsy (o : Option (List WhereClause))
    (h : truthyOptList o = false) : specWhereBindings (o.getD []) = [] := by
  cases o with
  | none => rfl
  | some l =>
    cases l with
    | nil => rfl
    | cons a tl => simp [truthyOptList] at h

theorem query_builder_bindings_decomp (t : String) (q : Query) (r : BuiltQuery)
    (hok : query_builder t q = .ok r) (hraw : truthyOptStr q.raw_query = false) :
    r.bindings = specSetBindings q ++ specWhereBindingsQ q ++ specLimitBindings q := by
  obtain ⟨sql, binds⟩ := r
  unfold query_builder at hok
  simp only [hraw, Bool.false_eq_true, if_false, ite_false] at hok
  -- name the limit/offset tail processing once
  by_cases hsel : q.action.getD "select" = "select"
  · simp only [hsel, if_true, ite_true, String.reduceEq, false_or, or_self, if_false,
      ite_false, pure_bind] at hok
    by_cases hw0 : truthyOptList q.where_ = true
    · cases hww : write_where t (q.where_.getD []) with
      | error e =>
        rw [hww] at hok
        simp [hw0, except_error_bind, except_throw_bind] at hok
      | ok pw =>
        obtain ⟨ws, wb⟩ := pw
        have hwb := (write_where_aux_ok t (q.where_.getD []) 0 ws wb hww).1
        rw [hww] at hok
        simp only [hw0, if_true, ite_true, except_ok_bind, pure_bind] at hok
        by_cases hl : truthyOptVal q.limit = true
        · cases hpi : pyInt (q.limit.getD .vNull) with
          | error e => rw [hpi] at hok; simp [hl, except_ok_bind, except_error_bind, except_throw_bind] at hok
          | ok ln =>
            rw [hpi] at hok
            by_cases ho : truthyOptVal q.offset = true
            · cases hoi : pyInt (q.offset.getD .vNull) with
              | error e => rw [hoi] at hok; simp [hl, ho, except_ok_bind, except_error_bind, except_throw_bind] at hok
              | ok on_ =>
                rw [hoi] at hok
                simp only [hl, ho, if_true, ite_true, except_ok_bind, pure_bind,
                  except_pure_def, Except.ok.injEq, BuiltQuery.mk.injEq] at hok
                rw [← hok.2, hwb]
                simp [specSetBindings, specWhereBindingsQ, specLimitBindings, hsel, hl, ho,
                  hpi, hoi]
            · simp only [hl, ho, Bool.false_eq_true, if_true, if_false, ite_true, ite_false,
                except_ok_bind, pure_bind, except_pure_def, Except.ok.injEq,
                BuiltQuery.mk.injEq] at hok
              rw [← hok.2, hwb]
              simp [specSetBindings, specWhereBindingsQ, specLimitBindings, hsel, hl, ho, hpi]
        · simp only [hl, Bool.false_eq_true, if_false, ite_false, except_pure_def,
            Except.ok.injEq, BuiltQuery.mk.injEq] at hok
          rw [← hok.2, hwb]
          simp [specSetBindings, specWhereBindingsQ, specLimitBindings, hsel, hl]
    · have hwnil : specWhereBindings (q.where_.getD []) = [] :=
        specWhereBindings_of_falsy q.where_ (eq_false_of_ne_true hw0)
      by_cases hl : truthyOptVal q.limit = true
      · cases hpi : pyInt (q.limit.getD .vNull) with
        | error e => rw [hpi] at hok; simp [hw0, hl, except_ok_bind, except_error_bind, except_throw_bind] at hok
        | ok ln =>
          rw [hpi] at hok
          by_cases ho : truthyOptVal q.offset = true
          · cases hoi : pyInt (q.offset.getD .vNull) with
            | error e => rw [hoi] at hok; simp [hw0, hl, ho, except_ok_bind, except_error_bind, except_throw_bind] at hok
            | ok on_ =>
              rw [hoi] at hok
              simp only [hw0, hl, ho, Bool.false_eq_true, if_true, if_false, ite_true,
                ite_false, except_ok_bind, pure_bind, except_pure_def, Except.ok.injEq,
                BuiltQuery.mk.injEq] at hok
              rw [← hok.2]
              simp [specSetBindings, specWhereBindingsQ, specLimitBindings, hsel, hw0, hl, ho,
                hpi, hoi, hwnil]
          · simp only [hw0, hl, ho, Bool.false_eq_true, if_true, if_false, ite_true, ite_false,
              except_ok_bind, pure_bind, except_pure_def, Except.ok.injEq,
              BuiltQuery.mk.injEq] at hok
            rw [← hok.2]
            simp [specSetBindings, specWhereBindingsQ, specLimitBindings, hsel, hw0, hl, ho, hpi,
              hwnil]
      · simp only [hw0, hl, Bool.false_eq_true, if_false, ite_false, except_pure_def,
          Except.ok.injEq, BuiltQuery.mk.injEq] at hok
        rw [← hok.2]
        simp [specSetBindings, specWhereBindingsQ, specLimitBindings, hsel, hw0, hl, hwnil]
  · by_cases hins : q.action.getD "select" = "insert"
    · -- insert
      by_cases hdt : truthyOptList q.data = true
      · simp only [hsel, hins, hdt, if_true, ite_true, String.reduceEq, false_or, or_true,
          true_or, or_self, or_false, if_false, ite_false, Bool.false_eq_true, Bool.not_true,
          not_false_eq_true, not_true_eq_false, pure_bind, except_ok_bind] at hok
        rw [setClause_eq (q.data.getD [])] at hok
        by_cases hw0 : truthyOptList q.where_ = true
        · cases hww : write_where t (q.where_.getD []) with
          | error e => rw [hww] at hok; simp [hw0, except_ok_bind, except_error_bind, except_throw_bind] at hok
          | ok pw =>
            obtain ⟨ws, wb⟩ := pw
            have hwb := (write_where_aux_ok t (q.where_.getD []) 0 ws wb hww).1
            rw [hww] at hok
            simp only [hw0, if_true, ite_true, except_ok_bind, pure_bind] at hok
            by_cases hl : truthyOptVal q.limit = true
            · cases hpi : pyInt (q.limit.getD .vNull) with
              | error e => rw [hpi] at hok; simp [hl, except_ok_bind, except_error_bind, except_throw_bind] at hok
              | ok ln =>
                rw [hpi] at hok
                by_cases ho : truthyOptVal q.offset = true
                · cases hoi : pyInt (q.offset.getD .vNull) with
                  | error e =>
                    rw [hoi] at hok; simp [hl, ho, except_ok_bind, except_error_bind, except_throw_bind] at hok
                  | ok on_ =>
                    rw [hoi] at hok
                    simp only [hl, ho, if_true, ite_true, except_ok_bind, pure_bind,
                      except_pure_def, Except.ok.injEq, BuiltQuery.mk.injEq] at hok
                    rw [← hok.2, hwb]
                    simp [specSetBindings, specWhereBindingsQ, specLimitBindings, hins, hl, ho,
                      hpi, hoi]
                · simp only [hl, ho, Bool.false_eq_true, if_true, if_false, ite_true, ite_false,
                    except_ok_bind, pure_bind, except_pure_def, Except.ok.injEq,
                    BuiltQuery.mk.injEq] at hok
                  rw [← hok.2, hwb]
                  simp [specSetBindings, specWhereBindingsQ, specLimitBindings, hins, hl, ho, hpi]
            · simp only [hl, Bool.false_eq_true, if_false, ite_false, except_pure_def,
                Except.ok.injEq, BuiltQuery.mk.injEq] at hok
              rw [← hok.2, hwb]
              simp [specSetBindings, specWhereBindingsQ, specLimitBindings, hins, hl]
        · have hwnil : specWhereBindings (q.where_.getD []) = [] :=
            specWhereBindings_of_falsy q.where_ (eq_false_of_ne_true hw0)
          by_cases hl : truthyOptVal q.limit = true
          · cases hpi : pyInt (q.limit.getD .vNull) with
            | error e => rw [hpi] at hok; simp [hw0, hl, except_ok_bind, except_error_bind, except_throw_bind] at hok
            | ok ln =>
              rw [hpi] at hok
              by_cases ho : truthyOptVal q.offset = true
              · cases hoi : pyInt (q.offset.getD .vNull) with
                | error e =>
                  rw [hoi] at hok; simp [hw0, hl, ho, except_ok_bind, except_error_bind, except_throw_bind] at hok
                | ok on_ =>
                  rw [hoi] at hok
                  simp only [hw0, hl, ho, Bool.false_eq_true, if_true, if_false, ite_true,
                    ite_false, except_ok_bind, pure_bind, except_pure_def, Except.ok.injEq,
                    BuiltQuery.mk.injEq] at hok
                  rw [← hok.2]
                  simp [specSetBindings, specWhereBindingsQ, specLimitBindings, hins, hw0, hl,
                    ho, hpi, hoi, hwnil]
              · simp only [hw0, hl, ho, Bool.false_eq_true, if_true, if_false, ite_true,
                  ite_false, except_ok_bind, pure_bind, except_pure_def, Except.ok.injEq,
                  BuiltQuery.mk.injEq] at hok
                rw [← hok.2]
                simp [specSetBindings, specWhereBindingsQ, specLimitBindings, hins, hw0, hl, ho,
                  hpi, hwnil]
          · simp only [hw0, hl, Bool.false_eq_true, if_false, ite_false, except_pure_def,
              Except.ok.injEq, BuiltQuery.mk.injEq] at hok
            rw [← hok.2]
            simp [specSetBindings, specWhereBindingsQ, specLimitBindings, hins, hw0, hl, hwnil]
      · simp [hsel, hins, hdt, except_error_bind, except_throw_bind] at hok
    · by_cases hupd : q.action.getD "select" = "update"
      · -- update
        by_cases hdt : truthyOptList q.data = true
        · simp only [hsel, hins, hupd, hdt, if_true, ite_true, String.reduceEq, false_or, or_true,
            true_or, or_self, or_false, if_false, ite_false, Bool.false_eq_true, Bool.not_true,
            not_false_eq_true, not_true_eq_false, pure_bind, except_ok_bind] at hok
          rw [setClause_eq (q.data.getD [])] at hok
          by_cases hw0 : truthyOptList q.where_ = true
          · cases hww : write_where t (q.where_.getD []) with
            | error e => rw [hww] at hok; simp [hw0, except_ok_bind, except_error_bind, except_throw_bind] at hok
            | ok pw =>
              obtain ⟨ws, wb⟩ := pw
              have hwb := (write_where_aux_ok t (q.where_.getD []) 0 ws wb hww).1
              rw [hww] at hok
              simp only [hw0, if_true, ite_true, except_ok_bind, pure_bind] at hok
              by_cases hl : truthyOptVal q.limit = true
              · cases hpi : pyInt (q.limit.getD .vNull) with
                | error e => rw [hpi] at hok; simp [hl, except_ok_bind, except_error_bind, except_throw_bind] at hok
                | ok ln =>
                  rw [hpi] at hok
                  by_cases ho : truthyOptVal q.offset = true
                  · cases hoi : pyInt (q.offset.getD .vNull) with
                    | error e =>
                      rw [hoi] at hok; simp [hl, ho, except_ok_bind, except_error_bind, except_throw_bind] at hok
                    | ok on_ =>
                      rw [hoi] at hok
                      simp only [hl, ho, if_true, ite_true, except_ok_bind, pure_bind,
                        except_pure_def, Except.ok.injEq, BuiltQuery.mk.injEq] at hok
                      rw [← hok.2, hwb]
                      simp [specSetBindings, specWhereBindingsQ, specLimitBindings, hupd, hl, ho,
                        hpi, hoi]
                  · simp only [hl, ho, Bool.false_eq_true, if_true, if_false, ite_true, ite_false,
                      except_ok_bind, pure_bind, except_pure_def, Except.ok.injEq,
                      BuiltQuery.mk.injEq] at hok
                    rw [← hok.2, hwb]
                    simp [specSetBindings, specWhereBindingsQ, specLimitBindings, hupd, hl, ho, hpi]
              · simp only [hl, Bool.false_eq_true, if_false, ite_false, except_pure_def,
                  Except.ok.injEq, BuiltQuery.mk.injEq] at hok
                rw [← hok.2, hwb]
                simp [specSetBindings, specWhereBindingsQ, specLimitBindings, hupd, hl]
          · have hwnil : specWhereBindings (q.where_.getD []) = [] :=
              specWhereBindings_of_falsy q.where_ (eq_false_of_ne_true hw0)
            by_cases hl : truthyOptVal q.limit = true
            · cases hpi : pyInt (q.limit.getD .vNull) with
              | error e => rw [hpi] at hok; simp [hw0, hl, except_ok_bind, except_error_bind, except_throw_bind] at hok
              | ok ln =>
                rw [hpi] at hok
                by_cases ho : truthyOptVal q.offset = true
                · cases hoi : pyInt (q.offset.getD .vNull) with
                  | error e =>
                    rw [hoi] at hok; simp [hw0, hl, ho, except_ok_bind, except_error_bind, except_throw_bind] at hok
                  | ok on_ =>
                    rw [hoi] at hok
                    simp only [hw0, hl, ho, Bool.false_eq_true, if_true, if_false, ite_true,
                      ite_false, except_ok_bind, pure_bind, except_pure_def, Except.ok.injEq,
                      BuiltQuery.mk.injEq] at hok
                    rw [← hok.2]
                    simp [specSetBindings, specWhereBindingsQ, specLimitBindings, hupd, hw0, hl,
                      ho, hpi, hoi, hwnil]
                · simp only [hw0, hl, ho, Bool.false_eq_true, if_true, if_false, ite_true,
                    ite_false, except_ok_bind, pure_bind, except_pure_def, Except.ok.injEq,
                    BuiltQuery.mk.injEq] at hok
                  rw [← hok.2]
                  simp [specSetBindings, specWhereBindingsQ, specLimitBindings, hupd, hw0, hl, ho,
                    hpi, hwnil]
            · simp only [hw0, hl, Bool.false_eq_true, if_false, ite_false, except_pure_def,
                Except.ok.injEq, BuiltQuery.mk.injEq] at hok
              rw [← hok.2]
              simp [specSetBindings, specWhereBindingsQ, specLimitBindings, hupd, hw0, hl, hwnil]
        · simp [hsel, hins, hupd, hdt, except_error_bind, except_throw_bind] at hok
      · by_cases hdel : q.action.getD "select" = "delete"
        · -- delete: the where rail makes the where list truthy
          by_cases hwt : truthyOptList q.where_ = true
          · simp only [hsel, hins, hupd, hdel, hwt, if_true, ite_true, String.reduceEq,
              false_or, or_false, or_self, if_false, ite_false, Bool.false_eq_true,
              Bool.not_true, not_false_eq_true, not_true_eq_false, pure_bind,
              except_ok_bind] at hok
            cases hww : write_where t (q.where_.getD []) with
            | error e => rw [hww] at hok; simp [hwt, except_ok_bind, except_error_bind, except_throw_bind] at hok
            | ok pw =>
              obtain ⟨ws, wb⟩ := pw
              have hwb := (write_where_aux_ok t (q.where_.getD []) 0 ws wb hww).1
              rw [hww] at hok
              simp only [hwt, if_true, ite_true, except_ok_bind, pure_bind] at hok
              by_cases hl : truthyOptVal q.limit = true
              · cases hpi : pyInt (q.limit.getD .vNull) with
                | error e => rw [hpi] at hok; simp [hl, except_ok_bind, except_error_bind, except_throw_bind] at hok
                | ok ln =>
                  rw [hpi] at hok
                  by_cases ho : truthyOptVal q.offset = true
                  · cases hoi : pyInt (q.offset.getD .vNull) with
                    | error e =>
                      rw [hoi] at hok; simp [hl, ho, except_ok_bind, except_error_bind, except_throw_bind] at hok
                    | ok on_ =>
                      rw [hoi] at hok
                      simp only [hl, ho, if_true, ite_true, except_ok_bind, pure_bind,
                        except_pure_def, Except.ok.injEq, BuiltQuery.mk.injEq] at hok
                      rw [← hok.2, hwb]
                      simp [specSetBindings, specWhereBindingsQ, specLimitBindings, hdel, hl,
                        ho, hpi, hoi]
                  · simp only [hl, ho, Bool.false_eq_true, if_true, if_false, ite_true,
                      ite_false, except_ok_bind, pure_bind, except_pure_def, Except.ok.injEq,
                      BuiltQuery.mk.injEq] at hok
                    rw [← hok.2, hwb]
                    simp [specSetBindings, specWhereBindingsQ, specLimitBindings, hdel, hl, ho,
                      hpi]
              · simp only [hl, Bool.false_eq_true, if_false, ite_false, except_pure_def,
                  Except.ok.injEq, BuiltQuery.mk.injEq] at hok
                rw [← hok.2, hwb]
                simp [specSetBindings, specWhereBindingsQ, specLimitBindings, hdel, hl]
          · simp [hsel, hins, hupd, hdel, hwt, except_error_bind, except_throw_bind] at hok
        · simp [hsel, hins, hupd, hdel, except_error_bind, except_throw_bind] at hok

/-- C1: for every query description compiled by the query compiler (raw
bypass aside), the bindings list exactly matches placeholder emission order —
all SET data values (in mapping iteration order, nulls and booleans inlined),
then all WHERE values (in clause order, IN-lists contributing one binding per
element), then the LIMIT value, then the OFFSET value — and for a WHERE list
whose text is free of `%`, the number of placeholder characters emitted
equals the number of structured non-IN bound predicates plus the IN-list
elements (so exactly `N` placeholders fall outside IN-lists), and the
bindings length equals the total number of bound scalars. -/
theorem c1_bindings_order (t : String) (q : Query) (r : BuiltQuery)
    (hok : query_builder t q = .ok r) (hraw : truthyOptStr q.raw_query = false)
    (w : List WhereClause) (s : String) (b : List Value)
    (hw : write_where t w = .ok (s, b)) (ht : pctFree t) (hfree : ∀ c ∈ w, pctFreeClause c) :
    r.bindings = specSetBindings q ++ specWhereBindingsQ q ++ specLimitBindings q ∧
    r.bindings.length =
      (specSetBindings q).length + (specWhereBindingsQ q).length + (specLimitBindings q).length ∧
    countPct s = nonInBoundCount w + inLenSum w ∧
    b.length = nonInBoundCount w + inLenSum w := by
  have h1 := query_builder_bindings_decomp t q r hok hraw
  have h2 := write_where_aux_ok t w 0 s b hw
  simp only [if_pos rfl, if_true] at h2
  refine ⟨h1, by simp [h1, Nat.add_assoc], ?_, ?_⟩
  · rw [h2.2, countPct_specWhereSql t w ht hfree, specWhereBindings_length]
  · rw [h2.1, specWhereBindings_length]

/-- Witness for C1: an update with inlined and bound SET values, a WHERE list
mixing a bound predicate, a raw fragment, an IN list and an inline IS clause,
plus LIMIT and OFFSET — the compiled bindings are exactly SET values, then
WHERE values, then LIMIT, then OFFSET, and the where fragment carries
`1 + 2 = 3` placeholders, `1` of them outside the IN list. -/
theorem c1_bindings_order_witness :
    [Value.vStr "x", .vStr "v", .vInt 1, .vInt 2, .vInt 5, .vInt 10] =
      specSetBindings
          { action := some "update",
            data := some [("a", .vStr "x"), ("b", .vNull), ("c", .vBool true)],
            where_ := some
              [{ field := "f", operator := "=", value := .vStr "v", chain := "AND" },
               { raw := some "x > 3", chain := "OR" },
               { field := "g", operator := "IN", value := .vList [.vInt 1, .vInt 2],
                 chain := "AND" },
               { field := "h", operator := "IS", value := .vStr "NULL", chain := "AND" }],
            limit := some (.vInt 5), offset := some (.vInt 10) } ++
        specWhereBindingsQ
          { action := some "update",
            data := some [("a", .vStr "x"), ("b", .vNull), ("c", .vBool true)],
            where_ := some
              [{ field := "f", operator := "=", value := .vStr "v", chain := "AND" },
               { raw := some "x > 3", chain := "OR" },
               { field := "g", operator := "IN", value := .vList [.vInt 1, .vInt 2],
                 chain := "AND" },
               { field := "h", operator := "IS", value := .vStr "NULL", chain := "AND" }],
            limit := some (.vInt 5), offset := some (.vInt 10) } ++
        specLimitBindings
          { action := some "update",
            data := some [("a", .vStr "x"), ("b", .vNull), ("c", .vBool true)],
            where_ := some
              [{ field := "f", operator := "=", value := .vStr "v", chain := "AND" },
               { raw := some "x > 3", chain := "OR" },
               { field := "g", operator := "IN", value := .vList [.vInt 1, .vInt 2],
                 chain := "AND" },
               { field := "h", operator := "IS", value := .vStr "NULL", chain := "AND" }],
            limit := some (.vInt 5), offset := some (.vInt 10) } ∧
    countPct " users.f = %s OR x > 3 AND users.g IN (%s, %s) AND users.h IS NULL" = 1 + 2 ∧
    nonInBoundCount
        [{ field := "f", operator := "=", value := .vStr "v", chain := "AND" },
         { raw := some "x > 3", chain := "OR" },
         { field := "g", operator := "IN", value := .vList [.vInt 1, .vInt 2], chain := "AND" },
         { field := "h", operator := "IS", value := .vStr "NULL", chain := "AND" }] = 1 := by
  have h := c1_bindings_order "users"
    { action := some "update",
      data := some [("a", .vStr "x"), ("b", .vNull), ("c", .vBool true)],
      where_ := some
        [{ field := "f", operator := "=", value := .vStr "v", chain := "AND" },
         { raw := some "x > 3", chain := "OR" },
         { field := "g", operator := "IN", value := .vList [.vInt 1, .vInt 2], chain := "AND" },
         { field := "h", operator := "IS", value := .vStr "NULL", chain := "AND" }],
      limit := some (.vInt 5), offset := some (.vInt 10) }
    ⟨"UPDATE users SET a = %s, b = NULL, c = 1 WHERE users.f = %s OR x > 3 AND users.g IN (%s, %s) AND users.h IS NULL LIMIT %s OFFSET %s",
     [Value.vStr "x", .vStr "v", .vInt 1, .vInt 2, .vInt 5, .vInt 10]⟩
    (by rfl) (by rfl)
    [{ field := "f", operator := "=", value := .vStr "v", chain := "AND" },
     { raw := some "x > 3", chain := "OR" },
     { field := "g", operator := "IN", value := .vList [.vInt 1, .vInt 2], chain := "AND" },
     { field := "h", operator := "IS", value := .vStr "NULL", chain := "AND" }]
    " users.f = %s OR x > 3 AND users.g IN (%s, %s) AND users.h IS NULL"
    [.vStr "v", .vInt 1, .vInt 2]
    (by rfl) (by decide) (by decide)
  refine ⟨h.1, ?_, by decide⟩
  rw [h.2.2.1]
  decide

/-- Counterexample to C2 as stated: a compiler validation failure (update
with empty data) raised while building the statement is NOT caught by the
result pipeline — `query_builder` runs before the `try` block in
`Model._process` — so the call propagates the exception instead of returning
null. -/
theorem c2_validation_not_swallowed_counterexample :
    Model._process { table := "users" } (fun _ _ => .ok {})
        { action := some "update", data := some [] } =
      .error "Update query must have data!" ∧
    Model._process { table := "users" } (fun _ _ => .ok {})
        { action := some "update", data := some [] } ≠ .ok none := by
  refine ⟨rfl, fun h => ?_⟩
  rw [show Model._process { table := "users" } (fun _ _ => .ok {})
      { action := some "update", data := some [] } =
      .error "Update query must have data!" from rfl] at h
  exact Except.noConfusion h

/-- C2 as amended: any exception raised during *execution* of the statement
(the database oracle erroring) is caught and logged by the result pipeline,
and the call returns null instead of propagating the exception; compiler
validation failures, however, are raised before the try block and
propagate. -/
theorem c2_exec_error_returns_none (cfg : ModelCfg) (db : DB) (st : QState) (bq : BuiltQuery)
    (e : String) (ht : cfg.table ≠ "") (hq : query_builder cfg.table st.toQuery = .ok bq)
    (hdb : db bq.sql bq.bindings = .error e) :
    Model._process cfg db st = .ok none := by
  unfold Model._process Model.processCore
  have ht2 : (cfg.table = "") = False := by simp [ht]
  simp only [ht2, if_false, ite_false, hq, except_ok_bind, pure_bind]
  cases hact : st.action with
  | none => rfl
  | some a =>
    unfold Model._execute
    simp only [hdb, except_error_bind]
    rfl

/-- Witness for the amended C2: a failing execution of a well-formed select
yields `Ok none` (Python `None`). -/
theorem c2_exec_error_returns_none_witness :
    Model._process { table := "users" } (fun _ _ => .error "boom") { action := some "select" } =
      .ok none :=
  c2_exec_error_returns_none { table := "users" } (fun _ _ => .error "boom")
    { action := some "select" } ⟨"SELECT users.* FROM users", []⟩ "boom"
    (by decide) (by rfl) (by rfl)

/-- Counterexample to C3 as stated: an update whose accumulated where-clause
list is PRESENT BUT EMPTY (`where = []`, e.g. after `where({})` or a reset)
does not fail — `Model.update` only rejects an absent `where` key
(`.get('where') is None`) and the compiler has no where rail for update — so
the statement executes as an unguarded full-table `UPDATE`. -/
theorem c3_empty_where_update_counterexample :
    Model.update { table := "users", timestamp := false }
        (fun _ _ => .ok { rowcount := .vInt 2 }) .vNull { where_ := some [] }
        [("name", .vStr "x")] =
      .ok (some (.dict [("affected_rows", .vInt 2)])) := rfl

/-- C3 as amended: each validation failure — missing table name, missing data
for insert or update at the compiler, missing where clause for a (hard)
delete, or an unrecognized action value — raises synchronously before any
I/O (the result does not depend on the database oracle); for update the rail
fires exactly when the where KEY is absent, while a present-but-empty where
list passes. -/
theorem c3_validations_before_io :
    (∀ (cfg : ModelCfg) (db : DB) (st : QState), cfg.table = "" →
      Model._process cfg db st = .error "Table name is not defined") ∧
    (∀ (cfg : ModelCfg) (db : DB) (now : Value) (st : QState),
      cfg.table ≠ "" → cfg.soft_delete = false → truthyOptStr st.raw_query = false →
      truthyOptList st.where_ = false →
      Model.delete cfg db now st = .error "Delete query must have where clause!") ∧
    (∀ (cfg : ModelCfg) (db : DB) (now : Value) (st : QState) (d : Row),
      (columns d cfg.fillable cfg.guarded).isEmpty = false → st.where_ = none →
      Model.update cfg db now st d = .error "Update query must have where clause!") ∧
    (∀ (t : String) (q : Query), truthyOptStr q.raw_query = false →
      q.action.getD "select" = "insert" → truthyOptList q.data = false →
      query_builder t q = .error "Insert query must have data!") ∧
    (∀ (t : String) (q : Query), truthyOptStr q.raw_query = false →
      q.action.getD "select" = "update" → truthyOptList q.data = false →
      query_builder t q = .error "Update query must have data!") ∧
    (∀ (t : String) (q : Query), truthyOptStr q.raw_query = false →
      ¬ q.action.getD "select" = "select" → ¬ q.action.getD "select" = "insert" →
      ¬ q.action.getD "select" = "update" → ¬ q.action.getD "select" = "delete" →
      query_builder t q = .error "Invalid __query.action") := by
  refine ⟨?_, ?_, ?_, ?_, ?_, ?_⟩
  · intro cfg db st h
    unfold Model._process Model.processCore
    simp [h, except_throw_bind]
  · intro cfg db now st ht hsd hraw hw0
    unfold Model.delete
    simp only [hsd, Bool.false_eq_true, if_false, ite_false, false_and]
    unfold Model._process Model.processCore
    have ht2 : (cfg.table = "") = False := by simp [ht]
    simp only [ht2, if_false, ite_false, pure_bind]
    unfold query_builder
    simp [hraw, hw0, except_throw_bind, except_error_bind, except_ok_bind]
  · intro cfg db now st d hcol hwn
    unfold Model.update
    simp [hcol, hwn, except_throw_bind]
  · intro t q hraw hact hdt
    unfold query_builder
    simp [hraw, hact, hdt, except_throw_bind, except_error_bind, except_ok_bind]
  · intro t q hraw hact hdt
    unfold query_builder
    simp [hraw, hact, hdt, except_throw_bind, except_error_bind, except_ok_bind]
  · intro t q hraw h1 h2 h3 h4
    unfold query_builder
    simp [hraw, h1, h2, h3, h4, except_throw_bind, except_error_bind, except_ok_bind]

/-- Witness for the amended C3, each rail at a concrete input. -/
theorem c3_validations_before_io_witness :
    Model._process { table := "" } (fun _ _ => .ok {}) {} = .error "Table name is not defined" ∧
    Model.delete { table := "users" } (fun _ _ => .ok {}) .vNull {} =
      .error "Delete query must have where clause!" ∧
    Model.update { table := "users", timestamp := false } (fun _ _ => .ok {}) .vNull {}
        [("name", .vStr "x")] = .error "Update query must have where clause!" ∧
    query_builder "users" { action := some "insert" } = .error "Insert query must have data!" ∧
    query_builder "users" { action := some "update" } = .error "Update query must have data!" ∧
    query_builder "users" { action := some "raw" } = .error "Invalid __query.action" :=
  ⟨c3_validations_before_io.1 _ _ _ rfl,
   c3_validations_before_io.2.1 _ _ _ _ (by decide) rfl rfl rfl,
   c3_validations_before_io.2.2.1 _ _ _ _ _ (by rfl) rfl,
   c3_validations_before_io.2.2.2.1 "users" _ rfl rfl rfl,
   c3_validations_before_io.2.2.2.2.1 "users" _ rfl rfl rfl,
   c3_validations_before_io.2.2.2.2.2 "users" _ rfl (by decide) (by decide) (by decide) (by decide)⟩

/-- C4 (code bug): `Model.paginate` has no guard for `per_page = 0`.  On a
model whose configured page size is `0` (no positive fallback limit),
`paginate(0, 0)` reaches `offset / limit` with a zero divisor, and
`paginate(1, 0)` reaches `int(total / per_page)` with `per_page = 0` — both
raise `ZeroDivisionError` instead of the validation error the design
requires.  The first equation holds for every database oracle: the division
is reached before any I/O. -/
theorem c4_paginate_division_by_zero :
    (∀ db : DB, Model.paginate { table := "users", per_page := 0 } db {} 0 0 =
      .error "ZeroDivisionError: division by zero") ∧
    Model.paginate { table := "users", per_page := 0 } (fun _ _ => .ok {}) {} 1 0 =
      .error "ZeroDivisionError: division by zero" :=
  ⟨fun _ => rfl, rfl⟩

theorem casts_not_in_cast (obj : Row) (cast : List (String × String)) (rev : Bool) (f : String)
    (h : ∀ p ∈ cast, p.1 ≠ f) : alistGet (casts obj cast rev) f = alistGet obj f := by
  induction cast generalizing obj with
  | nil => rfl
  | cons p tl ih =>
    cases halg : alistGet obj p.1 with
    | none =>
      have step : casts obj (p :: tl) rev = casts obj tl rev := by
        simp only [casts, List.foldl_cons, halg]
      rw [step]
      exact ih obj (fun p2 h2 => h p2 (by simp [h2]))
    | some w =>
      have step : casts obj (p :: tl) rev =
          casts (alistSet obj p.1 (applyCastField rev p.2 w)) tl rev := by
        simp only [casts, List.foldl_cons, halg]
      rw [step, ih _ (fun p2 h2 => h p2 (by simp [h2])),
        alistGet_alistSet_ne obj p.1 f _ (h p (by simp))]

theorem casts_not_in_obj (obj : Row) (cast : List (String × String)) (rev : Bool) (f : String)
    (h : alistGet obj f = none) : alistGet (casts obj cast rev) f = none := by
  induction cast generalizing obj with
  | nil => exact h
  | cons p tl ih =>
    cases halg : alistGet obj p.1 with
    | none =>
      have step : casts obj (p :: tl) rev = casts obj tl rev := by
        simp only [casts, List.foldl_cons, halg]
      rw [step]
      exact ih obj h
    | some w =>
      have hne : p.1 ≠ f := by
        intro he
        rw [he, h] at halg
        exact Option.noConfusion halg
      have step : casts obj (p :: tl) rev =
          casts (alistSet obj p.1 (applyCastField rev p.2 w)) tl rev := by
        simp only [casts, List.foldl_cons, halg]
      rw [step]
      exact ih _ (by rw [alistGet_alistSet_ne obj p.1 f _ hne]; exact h)

theorem casts_in_both (obj : Row) (cast : List (String × String)) (rev : Bool) (f tag : String)
    (v : Value) (hnodup : (cast.map Prod.fst).Nodup) (htag : alistGet cast f = some tag)
    (hv : alistGet obj f = some v) :
    alistGet (casts obj cast rev) f = some (applyCastField rev tag v) := by
  induction cast generalizing obj with
  | nil => simp [alistGet] at htag
  | cons p tl ih =>
    obtain ⟨k, tg⟩ := p
    by_cases hk : k = f
    · subst hk
      have htg : tg = tag := by
        simp [alistGet] at htag
        exact htag
      subst htg
      have hrest : ∀ p2 ∈ tl, p2.1 ≠ k := by
        intro p2 h2 he
        have hk2 : k ∉ tl.map Prod.fst := by
          have hh := hnodup
          simp only [List.map_cons] at hh
          exact (List.nodup_cons.mp hh).1
        have hmem : p2.1 ∈ tl.map Prod.fst := List.mem_map_of_mem Prod.fst h2
        rw [he] at hmem
        exact hk2 hmem
      have step : casts obj ((k, tg) :: tl) rev =
          casts (alistSet obj k (applyCastField rev tg v)) tl rev := by
        simp only [casts, List.foldl_cons, hv]
      rw [step, casts_not_in_cast _ tl rev k hrest, alistGet_alistSet_self]
    · have htag2 : alistGet tl f = some tag := by
        simpa [alistGet, hk] using htag
      have hnd2 : (tl.map Prod.fst).Nodup := by
        have hh := hnodup
        simp only [List.map_cons] at hh
        exact (List.nodup_cons.mp hh).2
      cases halg : alistGet obj k with
      | none =>
        have step : casts obj ((k, tg) :: tl) rev = casts obj tl rev := by
          simp only [casts, List.foldl_cons, halg]
        rw [step]
        exact ih obj hnd2 htag2 hv
      | some w =>
        have step : casts obj ((k, tg) :: tl) rev =
            casts (alistSet obj k (applyCastField rev tg w)) tl rev := by
          simp only [casts, List.foldl_cons, halg]
        rw [step]
        exact ih _ hnd2 htag2 (by rw [alistGet_alistSet_ne obj k f _ hk]; exact hv)

/-- C8: applying the cast engine in either direction never raises (the
embedding of `filter.casts` is a total function mirroring the blanket
`except` clause): a field present in both the row and the cast table is
replaced by the attempted conversion, and whenever the conversion raises
(`castValue` errors — including an outbound json cast of a non-serializable
value) the replacement is null; the rest of the row is still processed, and
fields absent from the cast table or from the row are left untouched. -/
theorem c8_casts_best_effort (obj : Row) (cast : List (String × String)) (reverse : Bool)
    (f : String) (hnodup : (cast.map Prod.fst).Nodup) :
    (alistGet cast f = none ∨ alistGet obj f = none →
      alistGet (casts obj cast reverse) f = alistGet obj f) ∧
    (∀ tag v, alistGet cast f = some tag → alistGet obj f = some v →
      alistGet (casts obj cast reverse) f = some (applyCastField reverse tag v)) ∧
    (∀ tag v e, castValue reverse tag v = .error e → applyCastField reverse tag v = .vNull) := by
  refine ⟨?_, ?_, ?_⟩
  · rintro (hc | ho)
    · exact casts_not_in_cast obj cast reverse f ((alistGet_eq_none_iff cast f).mp hc)
    · rw [casts_not_in_obj obj cast reverse f ho, ho]
  · intro tag v htag hv
    exact casts_in_both obj cast reverse f tag v hnodup htag hv
  · intro tag v e he
    unfold applyCastField
    rw [he]

/-- Witness for C8: an outbound `json` cast of a list containing a datetime
(not JSON serializable) degrades that field to null while the neighbouring
field, absent from the cast table, is untouched. -/
theorem c8_casts_best_effort_witness :
    alistGet (casts [("j", .vList [.vDate "2020-01-01"]), ("k", .vInt 1)] [("j", "json")] true)
        "j" = some (applyCastField true "json" (.vList [.vDate "2020-01-01"])) ∧
    applyCastField true "json" (.vList [.vDate "2020-01-01"]) = .vNull ∧
    alistGet (casts [("j", .vList [.vDate "2020-01-01"]), ("k", .vInt 1)] [("j", "json")] true)
        "k" = some (.vInt 1) := by
  refine ⟨(c8_casts_best_effort _ _ true "j" (by decide)).2.1 "json" _ (by decide) (by decide),
    by decide, ?_⟩
  exact ((c8_casts_best_effort [("j", .vList [.vDate "2020-01-01"]), ("k", .vInt 1)]
    [("j", "json")] true "k" (by decide)).1 (Or.inl (by decide))).trans (by decide)

theorem indexSingular_falsy (rf : String) (results : List Row)
    (h : ∃ r ∈ results, truthy ((alistGet r rf).getD .vNull) = false) :
    ∀ acc, Model.indexSingular rf results acc =
      .error ("Field `" ++ rf ++ "` is not exist in relation result!") := by
  induction results with
  | nil => simp at h
  | cons r rest ih =>
    intro acc
    by_cases hr : truthy ((alistGet r rf).getD .vNull) = true
    · obtain ⟨r2, hm, hf⟩ := h
      rcases List.mem_cons.mp hm with he | hm2
      · rw [he] at hf
        rw [hf] at hr
        exact Bool.noConfusion hr
      · simp only [Model.indexSingular, hr, not_true_eq_false, if_false, ite_false]
        exact ih ⟨r2, hm2, hf⟩ _
    · simp [Model.indexSingular, hr]

theorem indexPlural_falsy (rf : String) (results : List Row)
    (h : ∃ r ∈ results, truthy ((alistGet r rf).getD .vNull) = false) :
    ∀ acc, Model.indexPlural rf results acc =
      .error ("Field `" ++ rf ++ "` is not exist in relation result!") := by
  induction results with
  | nil => simp at h
  | cons r rest ih =>
    intro acc
    by_cases hr : truthy ((alistGet r rf).getD .vNull) = true
    · obtain ⟨r2, hm, hf⟩ := h
      rcases List.mem_cons.mp hm with he | hm2
      · rw [he] at hf
        rw [hf] at hr
        exact Bool.noConfusion hr
      · simp only [Model.indexPlural, hr, not_true_eq_false, if_false, ite_false]
        exact ih ⟨r2, hm2, hf⟩ _
    · simp [Model.indexPlural, hr]

/-- C10: the relation-integrity check fires not only when the related field
is absent from a fetched related row but whenever that row's value under the
related field is falsy (0, empty string, None, ...): indexing then raises the
hard `is not exist in relation result` error for every relation kind, and —
as the concrete second part shows on a full `_process` run with a present
field holding 0 — the whole call fails with that error. -/
theorem c10_falsy_relation_field (rt rf mf : String) (results : List Row)
    (h : ∃ r ∈ results, truthy ((alistGet r rf).getD .vNull) = false) :
    Model.buildRelIndex rt rf mf results =
      .error ("Field `" ++ rf ++ "` is not exist in relation result!") ∧
    Model._process { table := "users" }
        (fun s _ =>
          if s = "SELECT users.* FROM users" then .ok { rows := [[("id", .vInt 1)]] }
          else if s = "SELECT posts.* FROM posts WHERE posts.uid IN (%s)" then
            .ok { rows := [[("uid", .vInt 0), ("t", .vStr "p1")]] }
          else .error "unexpected sql")
        { action := some "select",
          relations := some [{ model := { table := "posts" }, foreignKey := "uid",
                               localKey := "id", identifier := "posts", type := "hasMany" }] } =
      .error "Field `uid` is not exist in relation result!" := by
  constructor
  · unfold Model.buildRelIndex
    by_cases ht : rt = "belongsTo" ∨ rt = "hasOne"
    · simp [ht, indexSingular_falsy rf results h [], except_error_bind]
    · simp [ht, indexPlural_falsy rf results h [], except_error_bind]
  · rfl

/-- Witness for C10: the falsy values 0, "" and None under a PRESENT related
field each trigger the error, for each relation kind. -/
theorem c10_falsy_relation_field_witness :
    Model.buildRelIndex "hasMany" "uid" "id" [[("uid", .vInt 0)]] =
      .error "Field `uid` is not exist in relation result!" ∧
    Model.buildRelIndex "hasOne" "uid" "id" [[("uid", .vStr "")]] =
      .error "Field `uid` is not exist in relation result!" ∧
    Model.buildRelIndex "belongsTo" "uid" "id" [[("t", .vStr "x"), ("uid", .vNull)]] =
      .error "Field `uid` is not exist in relation result!" :=
  ⟨(c10_falsy_relation_field "hasMany" "uid" "id" [[("uid", .vInt 0)]]
      ⟨[("uid", .vInt 0)], by decide, by decide⟩).1,
   (c10_falsy_relation_field "hasOne" "uid" "id" [[("uid", .vStr "")]]
      ⟨[("uid", .vStr "")], by decide, by decide⟩).1,
   (c10_falsy_relation_field "belongsTo" "uid" "id" [[("t", .vStr "x"), ("uid", .vNull)]]
      ⟨[("t", .vStr "x"), ("uid", .vNull)], by decide, by decide⟩).1⟩

theorem extendIndex_nil (cur : Option Value) : extendIndex cur [] = cur := by
  cases cur with
  | none => rfl
  | some w => cases w <;> rfl

theorem lastIndex_nil (cur : Option Value) : lastIndex cur [] = cur := by
  cases cur with
  | none => rfl
  | some w => cases w <;> rfl

theorem extendIndex_cons (cur : Option Value) (r : Row) (rs : List Row) :
    extendIndex (some (.vList ((match cur with
      | some (.vList xs) => xs
      | _ => []) ++ [.vDict r]))) rs = extendIndex cur (r :: rs) := by
  cases cur with
  | none => cases rs <;> simp [extendIndex]
  | some w =>
    cases w <;> cases rs <;> simp [extendIndex, List.append_assoc]

theorem lastIndex_cons (cur : Option Value) (r : Row) (rs : List Row) :
    lastIndex (some (.vDict r)) rs = lastIndex cur (r :: rs) := by
  cases rs with
  | nil => rfl
  | cons s ss => simp [lastIndex, List.getLast?_cons_cons]

theorem indexPlural_lookup (rf : String) :
    ∀ (results : List Row) (acc m : List (Value × Value)),
      Model.indexPlural rf results acc = .ok m → ∀ v : Value,
      alistGet m v = extendIndex (alistGet acc v)
        (results.filter (fun r => (alistGet r rf).getD .vNull = v)) := by
  intro results
  induction results with
  | nil =>
    intro acc m h v
    simp only [Model.indexPlural, Except.ok.injEq] at h
    subst h
    rw [List.filter_nil, extendIndex_nil]
  | cons r rest ih =>
    intro acc m h v
    by_cases hr : truthy ((alistGet r rf).getD .vNull) = true
    · simp only [Model.indexPlural, hr, not_true_eq_false, if_false, ite_false] at h
      have ihv := ih _ m h v
      by_cases hv : (alistGet r rf).getD .vNull = v
      · rw [ihv, ← hv, alistGet_alistSet_self]
        have hfil : (r :: rest).filter
            (fun r2 => decide ((alistGet r2 rf).getD .vNull = (alistGet r rf).getD .vNull)) =
            r :: rest.filter
              (fun r2 => decide ((alistGet r2 rf).getD .vNull = (alistGet r rf).getD .vNull)) := by
          simp [List.filter_cons]
        rw [hfil]
        exact extendIndex_cons (alistGet acc ((alistGet r rf).getD .vNull)) r _
      · rw [ihv, alistGet_alistSet_ne _ _ v _ hv]
        have hfil : (r :: rest).filter (fun r2 => decide ((alistGet r2 rf).getD .vNull = v)) =
            rest.filter (fun r2 => decide ((alistGet r2 rf).getD .vNull = v)) := by
          simp [List.filter_cons, hv]
        rw [hfil]
    · simp [Model.indexPlural, hr] at h

theorem indexSingular_lookup (rf : String) :
    ∀ (results : List Row) (acc m : List (Value × Value)),
      Model.indexSingular rf results acc = .ok m → ∀ v : Value,
      alistGet m v = lastIndex (alistGet acc v)
        (results.filter (fun r => (alistGet r rf).getD .vNull = v)) := by
  intro results
  induction results with
  | nil =>
    intro acc m h v
    simp only [Model.indexSingular, Except.ok.injEq] at h
    subst h
    rw [List.filter_nil, lastIndex_nil]
  | cons r rest ih =>
    intro acc m h v
    by_cases hr : truthy ((alistGet r rf).getD .vNull) = true
    · simp only [Model.indexSingular, hr, not_true_eq_false, if_false, ite_false] at h
      have ihv := ih _ m h v
      by_cases hv : (alistGet r rf).getD .vNull = v
      · rw [ihv, ← hv, alistGet_alistSet_self]
        have hfil : (r :: rest).filter
            (fun r2 => decide ((alistGet r2 rf).getD .vNull = (alistGet r rf).getD .vNull)) =
            r :: rest.filter
              (fun r2 => decide ((alistGet r2 rf).getD .vNull = (alistGet r rf).getD .vNull)) := by
          simp [List.filter_cons]
        rw [hfil]
        exact lastIndex_cons (alistGet acc ((alistGet r rf).getD .vNull)) r _
      · rw [ihv, alistGet_alistSet_ne _ _ v _ hv]
        have hfil : (r :: rest).filter (fun r2 => decide ((alistGet r2 rf).getD .vNull = v)) =
            rest.filter (fun r2 => decide ((alistGet r2 rf).getD .vNull = v)) := by
          simp [List.filter_cons, hv]
        rw [hfil]
    · simp [Model.indexSingular, hr] at h

theorem lastIndex_getD (rs : List Row) :
    (lastIndex none rs).getD .vNull =
      (match rs.getLast? with | some r => Value.vDict r | none => Value.vNull) := by
  cases rs with
  | nil => rfl
  | cons s ss =>
    show ((s :: ss).getLast?.map Value.vDict).getD .vNull = _
    cases hgl : (s :: ss).getLast? <;> simp [hgl]

theorem extendIndex_getD (rs : List Row) :
    (extendIndex none rs).getD (Value.vList []) = Value.vList (rs.map .vDict) := by
  cases rs <;> rfl

/-- C9: during relation attachment on select results, every parent row whose
correlation value has no match among the fetched related rows receives an
empty default under the relation's identifier name — null for
hasOne/belongsTo relations and the empty list (never null) for hasMany —
while matched parents receive the indexed related row (last write wins for
the singular kinds) or, for hasMany, the accumulated list of matching related
rows in fetch order. -/
theorem c9_relation_attachment (rt rf mf : String) (results : List Row) (ri : RelIndex)
    (prow : Row) (identifier : String) (v : Value)
    (hb : Model.buildRelIndex rt rf mf results = .ok ri)
    (hp : alistGet prow mf = some v) :
    ri.key = mf ∧
    ∃ prow2, Model.attachOne prow identifier ri = .ok prow2 ∧
      alistGet prow2 identifier = some
        (if rt = "belongsTo" ∨ rt = "hasOne" then
          (match (results.filter (fun r => (alistGet r rf).getD .vNull = v)).getLast? with
           | some r => Value.vDict r
           | none => Value.vNull)
         else
          Value.vList ((results.filter (fun r => (alistGet r rf).getD .vNull = v)).map .vDict)) := by
  unfold Model.buildRelIndex at hb
  by_cases ht : rt = "belongsTo" ∨ rt = "hasOne"
  · simp only [ht, if_true, ite_true] at hb
    cases hs : Model.indexSingular rf results [] with
    | error e => rw [hs] at hb; exact absurd hb (by simp [except_error_bind])
    | ok d =>
      rw [hs] at hb
      simp only [except_ok_bind, except_pure_def, Except.ok.injEq] at hb
      subst hb
      refine ⟨rfl, alistSet prow identifier ((alistGet d v).getD Value.vNull), ?_, ?_⟩
      · simp [Model.attachOne, hp]
      · rw [alistGet_alistSet_self]
        have hd := indexSingular_lookup rf results [] d hs v
        have hnil : alistGet ([] : List (Value × Value)) v = none := rfl
        rw [hnil] at hd
        simp only [ht, if_true, ite_true]
        rw [hd, lastIndex_getD]
        rfl
  · simp only [ht, if_false, ite_false] at hb
    cases hs : Model.indexPlural rf results [] with
    | error e => rw [hs] at hb; exact absurd hb (by simp [except_error_bind])
    | ok d =>
      rw [hs] at hb
      simp only [except_ok_bind, except_pure_def, Except.ok.injEq] at hb
      subst hb
      refine ⟨rfl, alistSet prow identifier ((alistGet d v).getD (Value.vList [])), ?_, ?_⟩
      · simp [Model.attachOne, hp]
      · rw [alistGet_alistSet_self]
        have hd := indexPlural_lookup rf results [] d hs v
        have hnil : alistGet ([] : List (Value × Value)) v = none := rfl
        rw [hnil] at hd
        simp only [ht, if_false, ite_false]
        rw [hd, extendIndex_getD]

/-- Witness for C9: two related rows correlate with parent id 1 and none with
parent id 2 — the hasMany kind attaches the accumulated list to the first
parent and `[]` (not null) to the second; the hasOne kind attaches the last
matching row, and belongsTo attaches null when unmatched. -/
theorem c9_relation_attachment_witness :
    alistGet (alistSet [("id", Value.vInt 1)] "posts"
        ((alistGet [(Value.vInt 1,
            Value.vList [Value.vDict [("uid", Value.vInt 1), ("t", Value.vStr "p1")],
                         Value.vDict [("uid", Value.vInt 1), ("t", Value.vStr "p2")]])]
          (Value.vInt 1)).getD (Value.vList []))) "posts" =
      some (Value.vList [Value.vDict [("uid", Value.vInt 1), ("t", Value.vStr "p1")],
                         Value.vDict [("uid", Value.vInt 1), ("t", Value.vStr "p2")]]) ∧
    (∃ prow2, Model.attachOne [("id", Value.vInt 2)] "posts"
        ⟨Value.vList [], "id",
         [(Value.vInt 1,
           Value.vList [Value.vDict [("uid", Value.vInt 1), ("t", Value.vStr "p1")],
                        Value.vDict [("uid", Value.vInt 1), ("t", Value.vStr "p2")]])]⟩ =
          .ok prow2 ∧
        alistGet prow2 "posts" = some (Value.vList [])) ∧
    (∃ prow2, Model.attachOne [("id", Value.vInt 1)] "post"
        ⟨Value.vNull, "id",
         [(Value.vInt 1, Value.vDict [("uid", Value.vInt 1), ("t", Value.vStr "p2")])]⟩ =
          .ok prow2 ∧
        alistGet prow2 "post" = some (Value.vDict [("uid", Value.vInt 1), ("t", Value.vStr "p2")])) ∧
    (∃ prow2, Model.attachOne [("id", Value.vInt 2)] "owner"
        ⟨Value.vNull, "id",
         [(Value.vInt 1, Value.vDict [("uid", Value.vInt 1), ("t", Value.vStr "p2")])]⟩ =
          .ok prow2 ∧
        alistGet prow2 "owner" = some Value.vNull) := by
  refine ⟨by decide, ?_, ?_, ?_⟩
  · obtain ⟨k, p2, hat, hget⟩ := c9_relation_attachment "hasMany" "uid" "id"
      [[("uid", Value.vInt 1), ("t", Value.vStr "p1")], [("uid", Value.vInt 1), ("t", Value.vStr "p2")]]
      ⟨Value.vList [], "id",
       [(Value.vInt 1,
         Value.vList [Value.vDict [("uid", Value.vInt 1), ("t", Value.vStr "p1")],
                      Value.vDict [("uid", Value.vInt 1), ("t", Value.vStr "p2")]])]⟩
      [("id", Value.vInt 2)] "posts" (Value.vInt 2) (by rfl) (by rfl)
    exact ⟨p2, hat, hget.trans (by decide)⟩
  · obtain ⟨k, p2, hat, hget⟩ := c9_relation_attachment "hasOne" "uid" "id"
      [[("uid", Value.vInt 1), ("t", Value.vStr "p1")], [("uid", Value.vInt 1), ("t", Value.vStr "p2")]]
      ⟨Value.vNull, "id",
       [(Value.vInt 1, Value.vDict [("uid", Value.vInt 1), ("t", Value.vStr "p2")])]⟩
      [("id", Value.vInt 1)] "post" (Value.vInt 1) (by rfl) (by rfl)
    exact ⟨p2, hat, hget.trans (by decide)⟩
  · obtain ⟨k, p2, hat, hget⟩ := c9_relation_attachment "belongsTo" "uid" "id"
      [[("uid", Value.vInt 1), ("t", Value.vStr "p1")], [("uid", Value.vInt 1), ("t", Value.vStr "p2")]]
      ⟨Value.vNull, "id",
       [(Value.vInt 1, Value.vDict [("uid", Value.vInt 1), ("t", Value.vStr "p2")])]⟩
      [("id", Value.vInt 2)] "owner" (Value.vInt 2) (by rfl) (by rfl)
    exact ⟨p2, hat, hget.trans (by decide)⟩

theorem ratTrunc_div_eq (a b : Int) (ha : 0 ≤ a) (hb : 0 < b) :
    ratTrunc ((a : ℚ) / (b : ℚ)) = a / b := by
  have hq0 : 0 ≤ (a : ℚ) / (b : ℚ) := by
    apply div_nonneg
    · exact_mod_cast ha
    · exact_mod_cast hb.le
  have hnum : 0 ≤ ((a : ℚ) / (b : ℚ)).num := Rat.num_nonneg.mpr hq0
  have hden : 0 ≤ ((((a : ℚ) / (b : ℚ)).den : Int)) := by positivity
  have h1 : ((a : ℚ) / (b : ℚ)).num.tdiv (((a : ℚ) / (b : ℚ)).den : Int) =
      ((a : ℚ) / (b : ℚ)).num / (((a : ℚ) / (b : ℚ)).den : Int) :=
    Int.tdiv_eq_ediv hnum hden
  have h3 : ⌊(a : ℚ) / (b : ℚ)⌋ = a / b := by
    have hbn : ((b.toNat : ℕ) : ℚ) = (b : ℚ) := by exact_mod_cast Int.toNat_of_nonneg hb.le
    rw [← hbn, Rat.floor_intCast_div_natCast a b.toNat, Int.toNat_of_nonneg hb.le]
  unfold ratTrunc
  rw [h1, ← Rat.floor_def, h3]

theorem process_select (cfg : ModelCfg) (db : DB) (st : QState) (bq : BuiltQuery)
    (cur : CursorResult) (ht : cfg.table ≠ "") (hact : st.action = some "select")
    (hrel : st.relations = none) (hcasts : cfg.casts = []) (hhid : cfg.hidden = [])
    (hq : query_builder cfg.table st.toQuery = .ok bq)
    (hdb : db bq.sql bq.bindings = .ok cur) :
    Model._process cfg db st = .ok (some (.rows cur.rows)) := by
  unfold Model._process Model.processCore
  have ht2 : (cfg.table = "") = False := by simp [ht]
  simp only [ht2, if_false, ite_false, hq, except_ok_bind, pure_bind, hact]
  unfold Model._execute
  simp only [hdb, except_ok_bind, String.reduceEq, or_self, if_false, ite_false, if_true,
    ite_true, except_pure_def]
  simp [hrel, hcasts, hhid]

theorem count_total (cfg : ModelCfg) (db : DB) (st : QState) (bq : BuiltQuery)
    (cur : CursorResult) (tot : Value) (ht : cfg.table ≠ "") (hsd : cfg.soft_delete = false)
    (hrel : st.relations = none) (hcasts : cfg.casts = []) (hhid : cfg.hidden = [])
    (hq : query_builder cfg.table
      { st.toQuery with select := some ["COUNT(*) AS total"], action := some "select" } = .ok bq)
    (hdb : db bq.sql bq.bindings = .ok cur)
    (hrows : cur.rows = [[("total", tot)]]) :
    Model.count cfg db st = .ok tot := by
  unfold Model.count Model.get Model.getQ
  simp only [hsd, Bool.false_eq_true, false_and, if_false, ite_false]
  rw [process_select cfg db _ bq cur ht (by simp) (by simp [hrel]) hcasts hhid (by simpa using hq) hdb,
    hrows]
  simp only [except_ok_bind]
  simp [alistGet]
  rfl

/-- C7: for every paginate call with a positive effective page and per_page,
the returned metadata satisfies: `total` is the row count reported by the
COUNT query compiled under the same WHERE state with limit/offset cleared,
`pages = floor(total / per_page)` (Lean's `Int` division, floor division for
a positive divisor), `next_page = page + 1` when `page < pages` and null
otherwise, `prev_page = page - 1` when `1 < page ≤ pages` and null
otherwise, and the data is the row set fetched with `limit = per_page` and
`offset = (page - 1) * per_page`. -/
theorem c7_paginate_metadata (cfg : ModelCfg) (db : DB) (st0 : QState)
    (page per_page tot : Int) (qd qc : BuiltQuery) (cur1 cur2 : CursorResult)
    (hp : 1 ≤ page) (hpp : 1 ≤ per_page) (htot : 0 ≤ tot)
    (ht : cfg.table ≠ "") (hsd : cfg.soft_delete = false)
    (hrel : st0.relations = none) (hcasts : cfg.casts = []) (hhid : cfg.hidden = [])
    (hdq : query_builder cfg.table
      { st0.toQuery with limit := some (.vInt per_page),
                         offset := some (.vInt ((page - 1) * per_page)),
                         action := some "select" } = .ok qd)
    (hdb1 : db qd.sql qd.bindings = .ok cur1)
    (hcq : query_builder cfg.table
      { st0.toQuery with limit := none, offset := none, action := some "select",
                         select := some ["COUNT(*) AS total"] } = .ok qc)
    (hdb2 : db qc.sql qc.bindings = .ok cur2)
    (hrows2 : cur2.rows = [[("total", .vInt tot)]]) :
    Model.paginate cfg db st0 page per_page =
      .ok { data := some (.rows cur1.rows), total := .vInt tot, pages := tot / per_page,
            page := page, per_page := per_page,
            next_page := if page < tot / per_page then some (page + 1) else none,
            prev_page := if 1 < page ∧ page ≤ tot / per_page then some (page - 1) else none } := by
  unfold Model.paginate
  have hp2 : (page < 1) = False := by simp only [eq_iff_iff, iff_false, not_lt]; omega
  have hpp2 : (per_page < 1) = False := by simp only [eq_iff_iff, iff_false, not_lt]; omega
  simp only [hp2, hpp2, if_false, ite_false, pure_bind, hsd, Bool.false_eq_true, false_and]
  rw [process_select cfg db _ qd cur1 ht (by simp) (by simp [hrel]) hcasts hhid
    (by simpa using hdq) hdb1]
  simp only [except_ok_bind]
  rw [count_total cfg db _ qc cur2 (.vInt tot) ht hsd (by simp [hrel]) hcasts hhid
    (by simpa using hcq) hdb2 hrows2]
  simp only [except_ok_bind, toRatNum]
  have hppz : (per_page = 0) = False := by simp only [eq_iff_iff, iff_false]; omega
  simp only [hppz, if_false, ite_false]
  rw [ratTrunc_div_eq tot per_page htot (by omega)]
  rfl

/-- Witness for C7, the design document's example: `paginate(page=2,
per_page=10)` over a 25-row filtered set (`WHERE users.active = %s`) yields
`pages = 2`, `next_page = null`, `prev_page = 1`, with the data query bound
to `LIMIT 10 OFFSET 10` and the count query sharing the WHERE state with
limit/offset cleared. -/
theorem c7_paginate_metadata_witness :
    Model.paginate { table := "users" }
        (fun s _ =>
          if s = "SELECT users.* FROM users WHERE users.active = %s LIMIT %s OFFSET %s" then
            .ok { rows := [[("id", .vInt 11)], [("id", .vInt 12)]] }
          else if s = "SELECT COUNT(*) AS total FROM users WHERE users.active = %s" then
            .ok { rows := [[("total", .vInt 25)]] }
          else .error "unexpected sql")
        { where_ := some [{ field := "active", operator := "=", value := .vInt 1,
                            chain := "AND" }] }
        2 10 =
      .ok { data := some (.rows [[("id", .vInt 11)], [("id", .vInt 12)]]),
            total := .vInt 25, pages := 2, page := 2, per_page := 10,
            next_page := none, prev_page := some 1 } := by
  have h := c7_paginate_metadata { table := "users" }
    (fun s _ =>
      if s = "SELECT users.* FROM users WHERE users.active = %s LIMIT %s OFFSET %s" then
        .ok { rows := [[("id", .vInt 11)], [("id", .vInt 12)]] }
      else if s = "SELECT COUNT(*) AS total FROM users WHERE users.active = %s" then
        .ok { rows := [[("total", .vInt 25)]] }
      else .error "unexpected sql")
    { where_ := some [{ field := "active", operator := "=", value := .vInt 1, chain := "AND" }] }
    2 10 25
    ⟨"SELECT users.* FROM users WHERE users.active = %s LIMIT %s OFFSET %s",
     [.vInt 1, .vInt 10, .vInt 10]⟩
    ⟨"SELECT COUNT(*) AS total FROM users WHERE users.active = %s", [.vInt 1]⟩
    { rows := [[("id", .vInt 11)], [("id", .vInt 12)]] }
    { rows := [[("total", .vInt 25)]] }
    (by decide) (by decide) (by decide) (by decide) rfl rfl rfl rfl
    (by rfl) (by rfl) (by rfl) (by rfl) rfl
  exact h
